import Mathlib

/-
  Verification of the NutriGuide (Multi_AI_Dietitian) repository.

  Shallow embedding of the rule-based nutrition-planning pipeline:
  the nutrition calculators (multi_ai_dietitian/utils/calculations.py),
  the nutrient estimator (utils/nutrient_db.py), the A2A message
  protocol and dispatcher (a2a/protocol.py), the individual agents
  (a2a/agents/*.py) and the orchestration pipeline (a2a/orchestrator.py).

  Modelling conventions:
  - Python floats are modelled as exact rationals (the arithmetic in the
    repository is plain field arithmetic on decimal constants).
  - Python dynamic values (dict/list/str/number/bool) are modelled by the
    inductive type Val; dicts are insertion-ordered association lists with
    unique keys, matching CPython dict semantics at the call sites embedded.
  - Raising an exception is modelled by Except.error carrying a short
    description of the Python exception.
-/

set_option maxHeartbeats 1000000

namespace NutriGuide

/-- Dynamic Python value: None, str, int/float (as an exact rational),
bool, list, or insertion-ordered dict. -/
inductive Val where
  | vNull
  | vStr (s : String)
  | vNum (q : ℚ)
  | vBool (b : Bool)
  | vList (xs : List Val)
  | vDict (kvs : List (String × Val))

open Val

/-- First value bound to key `k` in an association list (Python `d.get(k)` /
`d[k]`; dicts built in this development keep keys unique). -/
def assocFind? {α : Type} (d : List (String × α)) (k : String) : Option α :=
  match d with
  | [] => none
  | (k', v) :: rest => if k' = k then some v else assocFind? rest k

/-- Python `k in d` for a dict. -/
def assocContains {α : Type} (d : List (String × α)) (k : String) : Bool :=
  (assocFind? d k).isSome

/-- Python `d[k] = v`: overwrite in place when the key exists (keeping its
position, as CPython dicts do), otherwise append. -/
def assocSet {α : Type} (d : List (String × α)) (k : String) (v : α) : List (String × α) :=
  match d with
  | [] => [(k, v)]
  | (k', v') :: rest => if k' = k then (k, v) :: rest else (k', v') :: assocSet rest k v

/-- Python `d1.update(d2)` (also `{**d1, **d2}`): assign every pair of `d2`
into `d1` in order. -/
def assocUpdate {α : Type} (d₁ d₂ : List (String × α)) : List (String × α) :=
  d₂.foldl (fun acc kv => assocSet acc kv.1 kv.2) d₁

/-- Character-list infix test: does `needle` occur contiguously in `hay`? -/
def listInfix (needle : List Char) : List Char → Bool
  | [] => needle.isEmpty
  | c :: rest => needle.isPrefixOf (c :: rest) || listInfix needle rest

/-- Python substring test `needle in hay` on strings. -/
def pyIn (needle hay : String) : Bool :=
  listInfix needle.toList hay.toList

/-- Model of Python `str.lower()` (the strings in this repository are
ASCII, where per-character lowercasing agrees with Python). -/
def pyToLower (s : String) : String :=
  ⟨s.toList.map Char.toLower⟩

/-- Value of a list of decimal digit characters. -/
def digitsVal (cs : List Char) : ℕ :=
  cs.foldl (fun acc c => acc * 10 + (c.toNat - 48)) 0

/-- Model of Python `float(s)` on plain decimal numerals: optional sign,
digits with at most one decimal point, at least one digit overall
(exponent forms are not used by amount strings in this repository).
Returns `none` where Python raises `ValueError`. -/
def pyFloat? (s : String) : Option ℚ :=
  let cs := s.toList
  let signAndRest : ℚ × List Char :=
    match cs with
    | '-' :: rest => (-1, rest)
    | '+' :: rest => (1, rest)
    | _ => (1, cs)
  let sign := signAndRest.1
  let body := signAndRest.2
  let intPart := body.takeWhile Char.isDigit
  let rest := body.dropWhile Char.isDigit
  match rest with
  | [] =>
    if intPart.isEmpty then none
    else some (sign * (digitsVal intPart : ℚ))
  | '.' :: frac =>
    if frac.all Char.isDigit && !(intPart.isEmpty && frac.isEmpty) then
      some (sign * ((digitsVal intPart : ℚ) + (digitsVal frac : ℚ) / (10 ^ frac.length)))
    else none
  | _ => none

/-! ## utils/calculations.py -/

/-- `calculate_bmr_mifflin` from utils/calculations.py: Mifflin-St Jeor
basal metabolic rate; +5 offset for gender in \x7b"male", "m"\x7d
(case-insensitive), -161 otherwise. -/
def calculate_bmr_mifflin (weight_kg height_cm age : ℚ) (gender : String) : ℚ :=
  if pyToLower gender = "male" ∨ pyToLower gender = "m" then
    10 * weight_kg + (625/100) * height_cm - 5 * age + 5
  else
    10 * weight_kg + (625/100) * height_cm - 5 * age - 161

/-- The `activity_multipliers` table inside `calculate_tdee`
(utils/calculations.py), with the decimal constants as exact rationals. -/
def activity_multipliers : List (String × ℚ) :=
  [("sedentary", 6/5),
   ("lightly active", 11/8),
   ("moderately active", 31/20),
   ("very active", 69/40),
   ("extremely active", 19/10)]

/-- `calculate_tdee` from utils/calculations.py:
`activity_multipliers.get(activity_level.lower(), 1.2)` times `bmr`. -/
def calculate_tdee (bmr : ℚ) (activity_level : String) : ℚ :=
  bmr * ((assocFind? activity_multipliers (pyToLower activity_level)).getD (6/5))

/-- Result record of `plan_energy_and_macros` (the Python function returns a
dict with exactly these keys, in this order). -/
structure MacroPlan where
  bmr : ℚ
  tdee : ℚ
  target_calories : ℚ
  protein_g : ℚ
  fats_g : ℚ
  carbs_g : ℚ
  fiber_g : ℚ
  sodium_mg : ℚ

/-- `plan_energy_and_macros` from utils/calculations.py. -/
def plan_energy_and_macros (weight_kg height_cm age : ℚ)
    (gender activity_level goal_type : String) : MacroPlan :=
  let bmr := calculate_bmr_mifflin weight_kg height_cm age gender
  let tdee := calculate_tdee bmr activity_level
  let target_calories :=
    if goal_type = "weight_loss" then tdee - 500
    else if goal_type = "muscle_gain" then tdee + 300
    else tdee
  let protein_g := weight_kg * 2
  let fats_g := target_calories * (25/100) / 9
  let carbs_g := (target_calories - protein_g * 4 - fats_g * 9) / 4
  { bmr := bmr, tdee := tdee, target_calories := target_calories,
    protein_g := protein_g, fats_g := fats_g, carbs_g := carbs_g,
    fiber_g := 25, sodium_mg := 2300 }

/-- Dict from `plan_energy_and_macros`: the Python function returns this
dict (keys in source order); the goal agent forwards it as "targets". -/
def macroPlanDict (t : MacroPlan) : List (String × Val) :=
  [("bmr", vNum t.bmr), ("tdee", vNum t.tdee),
   ("target_calories", vNum t.target_calories), ("protein_g", vNum t.protein_g),
   ("fats_g", vNum t.fats_g), ("carbs_g", vNum t.carbs_g),
   ("fiber_g", vNum t.fiber_g), ("sodium_mg", vNum t.sodium_mg)]

/-! ## utils/nutrient_db.py -/

/-- `estimate_dish_nutrition_by_name` from utils/nutrient_db.py: a generic
per-100g profile adjusted by the first matching keyword category and
scaled linearly by weight (every value in the dict is numeric, so the
`isinstance` guard in the final loop always scales). -/
def estimate_dish_nutrition_by_name (dish_name : String) (weight_g : ℚ) : List (String × ℚ) :=
  let n := pyToLower dish_name
  let base : List (String × ℚ) :=
    [("kcal", 150), ("protein_g", 8), ("carbs_g", 20),
     ("fats_g", 6), ("fiber_g", 2), ("sodium_mg", 300)]
  let adjusted :=
    if ["chicken", "poultry", "breast"].any (fun w => pyIn w n) then
      assocUpdate base [("kcal", 180), ("protein_g", 25), ("carbs_g", 5), ("fats_g", 8)]
    else if ["fish", "salmon", "tuna"].any (fun w => pyIn w n) then
      assocUpdate base [("kcal", 200), ("protein_g", 22), ("carbs_g", 0), ("fats_g", 12)]
    else if ["pasta", "noodles", "rice"].any (fun w => pyIn w n) then
      assocUpdate base [("kcal", 130), ("protein_g", 4), ("carbs_g", 25), ("fats_g", 2)]
    else if ["salad", "vegetables", "greens"].any (fun w => pyIn w n) then
      assocUpdate base [("kcal", 80), ("protein_g", 3), ("carbs_g", 15), ("fats_g", 2), ("fiber_g", 4)]
    else base
  adjusted.map (fun kv => (kv.1, kv.2 * (weight_g / 100)))

/-! ## a2a/protocol.py: message model and dispatcher -/

/-- The `MessageType` enum from a2a/protocol.py. -/
inductive MessageType where
  | REQUEST | RESPONSE | NOTIFICATION | ERROR
  | PREFERENCE_UPDATE | GOAL_ANALYSIS | FOOD_SUGGESTION | SAFETY_CHECK
  | ADAPTATION_REQUEST | MOTIVATION_MESSAGE | CULTURAL_ADAPTATION | BUDGET_CHECK
  | TIMING_SUGGESTION | SUSTAINABILITY_CHECK | MEDICAL_ALERT | FEEDBACK_PROCESSING
  | EMERGENCY_ALERT | MEAL_ANALYSIS | DAILY_NUTRITION_ANALYSIS | PROGRESS_ANALYSIS
  | COST_ANALYSIS
deriving DecidableEq

/-- The `.value` strings of the `MessageType` enum members. -/
def MessageType.value : MessageType → String
  | .REQUEST => "request"
  | .RESPONSE => "response"
  | .NOTIFICATION => "notification"
  | .ERROR => "error"
  | .PREFERENCE_UPDATE => "preference_update"
  | .GOAL_ANALYSIS => "goal_analysis"
  | .FOOD_SUGGESTION => "food_suggestion"
  | .SAFETY_CHECK => "safety_check"
  | .ADAPTATION_REQUEST => "adaptation_request"
  | .MOTIVATION_MESSAGE => "motivation_message"
  | .CULTURAL_ADAPTATION => "cultural_adaptation"
  | .BUDGET_CHECK => "budget_check"
  | .TIMING_SUGGESTION => "timing_suggestion"
  | .SUSTAINABILITY_CHECK => "sustainability_check"
  | .MEDICAL_ALERT => "medical_alert"
  | .FEEDBACK_PROCESSING => "feedback_processing"
  | .EMERGENCY_ALERT => "emergency_alert"
  | .MEAL_ANALYSIS => "meal_analysis"
  | .DAILY_NUTRITION_ANALYSIS => "daily_nutrition_analysis"
  | .PROGRESS_ANALYSIS => "progress_analysis"
  | .COST_ANALYSIS => "cost_analysis"

/-- The `Priority` enum from a2a/protocol.py. -/
inductive Priority where
  | LOW | NORMAL | HIGH | CRITICAL
deriving DecidableEq

/-- The `.value` strings of the `Priority` enum members. -/
def Priority.value : Priority → String
  | .LOW => "low"
  | .NORMAL => "normal"
  | .HIGH => "high"
  | .CRITICAL => "critical"

/-- The `A2AMessage` dataclass. `message_id` (a fresh uuid) and
`timestamp` (datetime.now) are modelled as opaque strings defaulting to
""; no embedded code path reads them back. -/
structure A2AMessage where
  message_id : String := ""
  timestamp : String := ""
  message_type : MessageType := .REQUEST
  priority : Priority := .NORMAL
  sender : String := ""
  recipient : String := ""
  content : List (String × Val) := []
  metadata : List (String × Val) := []

/-- `A2AMessage.to_dict` from a2a/protocol.py. -/
def A2AMessage.to_dict (m : A2AMessage) : Val :=
  vDict [("message_id", vStr m.message_id),
         ("timestamp", vStr m.timestamp),
         ("message_type", vStr m.message_type.value),
         ("priority", vStr m.priority.value),
         ("sender", vStr m.sender),
         ("recipient", vStr m.recipient),
         ("content", vDict m.content),
         ("metadata", vDict m.metadata)]

/-- `Agent.send_message` from a2a/protocol.py: every agent builds its
response with its own id as sender and the request sender as recipient. -/
def agent_send_message (agent_id recipient : String) (mt : MessageType)
    (content : List (String × Val)) : A2AMessage :=
  { message_type := mt, priority := .NORMAL, sender := agent_id,
    recipient := recipient, content := content }

/-- An agent object: id, the two in-memory logs of the `Agent` base class,
and its `process_message` implementation. The base class declares
`process_message` abstract, so it is a function field here; concrete
agents of this repository instantiate it below. `Except.error` models a
Python exception escaping the handler. -/
structure Agent where
  agent_id : String
  message_queue : List A2AMessage := []
  conversation_history : List A2AMessage := []
  process_message : A2AMessage → Except String A2AMessage

/-- `Agent.receive_message`: append to the queue and to the history. -/
def Agent.receive_message (a : Agent) (m : A2AMessage) : Agent :=
  { a with message_queue := a.message_queue ++ [m],
           conversation_history := a.conversation_history ++ [m] }

/-- CPython-dict lookup of `self.agents[recipient]`: registration order is
insertion order; keys are unique here, so first match is the match. -/
def findAgent : List Agent → String → Option Agent
  | [], _ => none
  | a :: rest, id => if a.agent_id = id then some a else findAgent rest id

/-- Replace the registered agent with the given id in place. -/
def updateAgent : List Agent → String → (Agent → Agent) → List Agent
  | [], _, _ => []
  | a :: rest, id, f => if a.agent_id = id then f a :: rest else a :: updateAgent rest id f

/-- `A2AOrchestrator` from a2a/protocol.py: the dict of registered agents
(in insertion order) plus the global message history. -/
structure A2AOrchestrator where
  agents : List Agent := []
  message_history : List A2AMessage := []

/-- `A2AOrchestrator.register_agent`: `self.agents[agent.agent_id] = agent`
(duplicate ids overwrite in place, new ids append). -/
def A2AOrchestrator.register_agent (o : A2AOrchestrator) (a : Agent) : A2AOrchestrator :=
  if (findAgent o.agents a.agent_id).isSome then
    { o with agents := updateAgent o.agents a.agent_id (fun _ => a) }
  else
    { o with agents := o.agents ++ [a] }

/-- `A2AOrchestrator.send_message` from a2a/protocol.py: raise ValueError
for an unregistered recipient; otherwise deliver (queue + history of the
recipient grow), invoke the handler, extend the global history with the
request and response, and return the response. A handler exception
propagates (on that path the in-place mutation of the recipient agent is
not tracked; it is observable only through the diagnostic
`get_agent_status`, which no embedded claim touches). -/
def A2AOrchestrator.send_message (o : A2AOrchestrator) (m : A2AMessage) :
    Except String (A2AMessage × A2AOrchestrator) :=
  match findAgent o.agents m.recipient with
  | none => .error ("Recipient agent " ++ m.recipient ++ " not found")
  | some a =>
    match (a.receive_message m).process_message m with
    | .error e => .error e
    | .ok response =>
      .ok (response,
        { agents := updateAgent o.agents m.recipient (fun x => x.receive_message m),
          message_history := o.message_history ++ [m, response] })

/-- Loop body of `A2AOrchestrator.broadcast_message`: iterate the
registered agents in order, skip the sender, send to each and collect the
responses; a handler exception propagates out of the loop. -/
def broadcast_go (sender : String) (mt : MessageType) (content : List (String × Val))
    (priority : Priority) : A2AOrchestrator → List Agent →
    Except String (List A2AMessage × A2AOrchestrator)
  | o, [] => .ok ([], o)
  | o, a :: rest =>
    if a.agent_id = sender then broadcast_go sender mt content priority o rest
    else
      match o.send_message { message_type := mt, priority := priority, sender := sender,
                             recipient := a.agent_id, content := content } with
      | .error e => .error e
      | .ok (r, o') =>
        match broadcast_go sender mt content priority o' rest with
        | .error e => .error e
        | .ok (rs, o'') => .ok (r :: rs, o'')

/-- `A2AOrchestrator.broadcast_message` from a2a/protocol.py. -/
def A2AOrchestrator.broadcast_message (o : A2AOrchestrator) (sender : String)
    (mt : MessageType) (content : List (String × Val)) (priority : Priority) :
    Except String (List A2AMessage × A2AOrchestrator) :=
  broadcast_go sender mt content priority o o.agents

/-- `A2AOrchestrator.get_agent_status`: per-agent queue and history sizes. -/
def A2AOrchestrator.get_agent_status (o : A2AOrchestrator) : Val :=
  vDict (o.agents.map (fun a =>
    (a.agent_id,
     vDict [("pending_messages", vNum (a.message_queue.length : ℚ)),
            ("conversation_history_length", vNum (a.conversation_history.length : ℚ))])))

/-! ## Shared content helpers (Python dynamic access patterns) -/

/-- Python `content.get(k, default-dict)` read as a dict. A non-dict value
here would make the Python call sites raise later; all embedded flows
store dicts under these keys. -/
def asDictD (v : Option Val) : List (String × Val) :=
  match v with
  | some (vDict kvs) => kvs
  | _ => []

/-- Python `content.get(k, [])` read as a list of strings. Non-string
elements (which would raise `AttributeError` at the `.lower()` call sites
in Python) are not modelled; every embedded call site passes strings. -/
def getStrListD (d : List (String × Val)) (k : String) : List String :=
  match assocFind? d k with
  | some (vList xs) => xs.foldr (fun v acc => match v with | vStr s => s :: acc | _ => acc) []
  | _ => []

/-- Python `d.get(k, default)` on a Val dict. -/
def vGetD (d : List (String × Val)) (k : String) (dflt : Val) : Val :=
  (assocFind? d k).getD dflt

/-- Numeric dict read `d.get(k, 0)` (used on dicts that always hold
numbers at these keys). -/
def numGetD (kvs : List (String × Val)) (k : String) (d : ℚ) : ℚ :=
  match assocFind? kvs k with
  | some (vNum q) => q
  | _ => d

/-- Wrap a list of strings as a Python list value. -/
def strListVal (xs : List String) : Val := vList (xs.map vStr)

/-- Wrap a list of numbers as a Python list value. -/
def numListVal (xs : List ℚ) : Val := vList (xs.map vNum)

/-- Scaled dict read for the nutrition dicts of the food agent. -/
def qGetD (d : List (String × ℚ)) (k : String) (dflt : ℚ) : ℚ :=
  (assocFind? d k).getD dflt

/-! ## schemas.py: UserProfile -/

/-- The `UserProfile` dataclass from schemas.py (fields in declaration
order; numbers as exact rationals). Note the singular field
`cuisine_preference`. -/
structure UserProfile where
  name : String
  age : ℚ
  gender : String
  height_cm : ℚ
  weight_kg : ℚ
  activity_level : String
  goal_type : String
  dietary_preferences : List String
  allergies : List String
  intolerances : List String
  disliked_foods : List String
  avoid_ingredients : List String
  cuisine_preference : String
  budget_level : String
  cooking_skill : String
  time_availability : String
  training_days : List ℚ
  medical_conditions : List String
  medications : List String
  country : String

/-- `user_profile.__dict__`: the fields of a dataclass instance, in
declaration order. -/
def userProfileDict (p : UserProfile) : List (String × Val) :=
  [("name", vStr p.name), ("age", vNum p.age), ("gender", vStr p.gender),
   ("height_cm", vNum p.height_cm), ("weight_kg", vNum p.weight_kg),
   ("activity_level", vStr p.activity_level), ("goal_type", vStr p.goal_type),
   ("dietary_preferences", strListVal p.dietary_preferences),
   ("allergies", strListVal p.allergies),
   ("intolerances", strListVal p.intolerances),
   ("disliked_foods", strListVal p.disliked_foods),
   ("avoid_ingredients", strListVal p.avoid_ingredients),
   ("cuisine_preference", vStr p.cuisine_preference),
   ("budget_level", vStr p.budget_level),
   ("cooking_skill", vStr p.cooking_skill),
   ("time_availability", vStr p.time_availability),
   ("training_days", numListVal p.training_days),
   ("medical_conditions", strListVal p.medical_conditions),
   ("medications", strListVal p.medications),
   ("country", vStr p.country)]

/-- The field names of `UserProfile`. -/
def userProfile_keys : List String :=
  ["name", "age", "gender", "height_cm", "weight_kg", "activity_level",
   "goal_type", "dietary_preferences", "allergies", "intolerances",
   "disliked_foods", "avoid_ingredients", "cuisine_preference",
   "budget_level", "cooking_skill", "time_availability", "training_days",
   "medical_conditions", "medications", "country"]

/-- String field read (default when absent or differently typed). -/
def getStrD (d : List (String × Val)) (k : String) (dflt : String) : String :=
  match assocFind? d k with | some (vStr s) => s | _ => dflt

/-- Numeric field read (default when absent or differently typed). -/
def getNumD (d : List (String × Val)) (k : String) (dflt : ℚ) : ℚ :=
  match assocFind? d k with | some (vNum q) => q | _ => dflt

/-- Number-list field read (non-number elements dropped). -/
def getNumListD (d : List (String × Val)) (k : String) : List ℚ :=
  match assocFind? d k with
  | some (vList xs) => xs.foldr (fun v acc => match v with | vNum q => q :: acc | _ => acc) []
  | _ => []

/-- Model of `UserProfile(**complete_profile)`: a dataclass constructor
fails with TypeError exactly when a required key is missing or an
unexpected key is present. Dataclasses do not type-check values, so the
field reads are total with defaults; every dict the embedded flows build
holds values of the declared field types, where the reads are exact. -/
def userProfileOfDict? (d : List (String × Val)) : Option UserProfile :=
  if userProfile_keys.all (fun k => assocContains d k)
      && d.all (fun kv => userProfile_keys.contains kv.1) then
    some { name := getStrD d "name" "", age := getNumD d "age" 0,
           gender := getStrD d "gender" "",
           height_cm := getNumD d "height_cm" 0,
           weight_kg := getNumD d "weight_kg" 0,
           activity_level := getStrD d "activity_level" "",
           goal_type := getStrD d "goal_type" "",
           dietary_preferences := getStrListD d "dietary_preferences",
           allergies := getStrListD d "allergies",
           intolerances := getStrListD d "intolerances",
           disliked_foods := getStrListD d "disliked_foods",
           avoid_ingredients := getStrListD d "avoid_ingredients",
           cuisine_preference := getStrD d "cuisine_preference" "",
           budget_level := getStrD d "budget_level" "",
           cooking_skill := getStrD d "cooking_skill" "",
           time_availability := getStrD d "time_availability" "",
           training_days := getNumListD d "training_days",
           medical_conditions := getStrListD d "medical_conditions",
           medications := getStrListD d "medications",
           country := getStrD d "country" "" }
  else none

/-! ## a2a/agents/preference_agent.py -/

/-- `PreferenceAgent.process_message`, with `user_profile` the mutable
per-agent profile state accumulated by previous PREFERENCE_UPDATE calls
(empty for a freshly constructed agent). -/
def preference_process (user_profile : List (String × Val)) (m : A2AMessage) :
    Except String A2AMessage :=
  if m.message_type = .PREFERENCE_UPDATE then
    .ok (agent_send_message "preference_agent" m.sender .RESPONSE
      [("status", vStr "preferences_updated"),
       ("profile", vDict (assocUpdate user_profile m.content)),
       ("message", vStr "Preferences logged and will be respected in all meal suggestions")])
  else if m.message_type = .REQUEST then
    .ok (agent_send_message "preference_agent" m.sender .RESPONSE
      [("preferences", vDict user_profile)])
  else
    .ok (agent_send_message "preference_agent" m.sender .RESPONSE
      [("status", vStr "processed"), ("agent", vStr "preference_agent")])

/-- The preference agent with profile state `user_profile`. -/
def preferenceAgentObj (user_profile : List (String × Val)) : Agent :=
  { agent_id := "preference_agent", process_message := preference_process user_profile }

/-! ## a2a/agents/goal_agent.py -/

/-- The `defaults` dict merged under the profile in `_analyze_goals`. -/
def goal_defaults : List (String × Val) :=
  [("cooking_skill", vStr "beginner"), ("time_availability", vStr "medium"),
   ("training_days", vList []), ("medical_conditions", vList []),
   ("medications", vList [])]

/-- `GoalAgent.process_message`; `clock` models the
`datetime.now().strftime` fragment of the blueprint id. The blueprint
store only feeds `get_insights` and is not tracked. -/
def goal_process (clock : String) (m : A2AMessage) : Except String A2AMessage :=
  if m.message_type = .GOAL_ANALYSIS then
    match userProfileOfDict?
        (assocUpdate goal_defaults (asDictD (assocFind? m.content "profile"))) with
    | none => .error "TypeError: UserProfile constructor arguments do not match its fields"
    | some up =>
      .ok (agent_send_message "goal_agent" m.sender .RESPONSE
        [("blueprint_id", vStr ("blueprint_" ++ up.name ++ "_" ++ clock)),
         ("targets", vDict (macroPlanDict (plan_energy_and_macros up.weight_kg up.height_cm
           up.age up.gender up.activity_level up.goal_type))),
         ("tdee", vNum (plan_energy_and_macros up.weight_kg up.height_cm up.age
           up.gender up.activity_level up.goal_type).tdee),
         ("message", vStr ("Nutritional blueprint created for " ++ up.goal_type ++ " goal"))])
  else
    .ok (agent_send_message "goal_agent" m.sender .RESPONSE
      [("status", vStr "processed"), ("agent", vStr "goal_agent")])

/-- The goal agent. -/
def goalAgentObj (clock : String) : Agent :=
  { agent_id := "goal_agent", process_message := goal_process clock }

/-! ## a2a/agents/food_knowledge_agent.py -/

/-- One ingredient line of a suggested meal. -/
structure Ingredient where
  name : String
  grams : ℚ
  method : String

/-- One suggested meal option (the dicts built by `_suggest_breakfast`
and friends). -/
structure MealOption where
  name : String
  ingredients : List Ingredient
  nutrition : List (String × ℚ)
  instructions : String

/-- `FoodKnowledgeAgent._calculate_nutrition`: sum the per-dish estimates
over the zipped food/gram lists into the six-key totals dict. -/
def calculate_nutrition (foods : List String) (grams : List ℚ) : List (String × ℚ) :=
  (foods.zip grams).foldl
    (fun totals fg =>
      (estimate_dish_nutrition_by_name fg.1 fg.2).foldl
        (fun t kv => assocSet t kv.1 ((assocFind? t kv.1).getD 0 + kv.2)) totals)
    [("kcal", 0), ("protein_g", 0), ("carbs_g", 0), ("fats_g", 0), ("fiber_g", 0), ("sodium_mg", 0)]

/-- `"vegetarian" in preferences.get("dietary_preferences", [])`. On a
list Python compares elements for equality; on a string it is a
substring test; the embedded flows always store a list of strings here. -/
def has_vegetarian (preferences : List (String × Val)) : Bool :=
  match assocFind? preferences "dietary_preferences" with
  | some (vList xs) => xs.any (fun v => match v with | vStr s => s == "vegetarian" | _ => false)
  | some (vStr s) => pyIn "vegetarian" s
  | _ => false

/-- `_suggest_breakfast` (the first protein source is "tofu" when
vegetarian, "eggs" otherwise). -/
def suggest_breakfast (preferences _targets : List (String × Val)) : List MealOption :=
  let vegetarian := has_vegetarian preferences
  let ps0 := if vegetarian then "tofu" else "eggs"
  [{ name := "Protein Power Bowl",
     ingredients := [⟨ps0, 150, if pyIn "eggs" ps0 then "scrambled" else "cubed"⟩,
                     ⟨"oats", 50, "cooked"⟩, ⟨"banana", 120, "sliced"⟩, ⟨"almonds", 20, "chopped"⟩],
     nutrition := calculate_nutrition [ps0, "oats", "banana", "almonds"] [150, 50, 120, 20],
     instructions := "Cook oats with water. Scramble eggs or cube tofu. Slice banana and chop almonds. Layer in bowl and enjoy!" },
   { name := "Green Smoothie Bowl",
     ingredients := [⟨"spinach", 50, "blended"⟩, ⟨"banana", 100, "frozen"⟩,
                     ⟨"greek yogurt", 100, "plain"⟩, ⟨"chia seeds", 15, "sprinkled"⟩],
     nutrition := calculate_nutrition ["spinach", "banana", "greek yogurt", "chia seeds"] [50, 100, 100, 15],
     instructions := "Blend spinach, frozen banana, and yogurt until smooth. Pour into bowl and top with chia seeds." },
   { name := "Avocado Toast Deluxe",
     ingredients := [⟨"whole grain bread", 60, "toasted"⟩, ⟨"avocado", 80, "mashed"⟩,
                     ⟨if !vegetarian then "eggs" else "tofu", 100, if !vegetarian then "poached" else "scrambled"⟩,
                     ⟨"tomato", 50, "sliced"⟩],
     nutrition := calculate_nutrition ["whole grain bread", "avocado",
       if !vegetarian then "eggs" else "tofu", "tomato"] [60, 80, 100, 50],
     instructions := "Toast bread. Mash avocado with salt and pepper. Poach egg or scramble tofu. Layer avocado, egg/tofu, and tomato slices on toast." }]

/-- `_suggest_lunch` (protein "tofu" when vegetarian, "chicken" otherwise). -/
def suggest_lunch (preferences _targets : List (String × Val)) : List MealOption :=
  let vegetarian := has_vegetarian preferences
  let protein := if vegetarian then "tofu" else "chicken"
  [{ name := "Mediterranean Bowl",
     ingredients := [⟨protein, 180, "grilled"⟩, ⟨"quinoa", 150, "cooked"⟩,
                     ⟨"cucumber", 100, "diced"⟩, ⟨"tomato", 80, "chopped"⟩, ⟨"olive oil", 10, "drizzle"⟩],
     nutrition := calculate_nutrition [protein, "quinoa", "cucumber", "tomato", "olive oil"] [180, 150, 100, 80, 10],
     instructions := "Grill protein and cook quinoa. Dice cucumber and chop tomato. Combine in bowl and drizzle with olive oil." },
   { name := "Asian Stir-Fry",
     ingredients := [⟨protein, 160, "stir-fried"⟩, ⟨"brown rice", 180, "cooked"⟩,
                     ⟨"bell pepper", 100, "sliced"⟩, ⟨"broccoli", 120, "steamed"⟩, ⟨"soy sauce", 15, "drizzle"⟩],
     nutrition := calculate_nutrition [protein, "brown rice", "bell pepper", "broccoli", "soy sauce"] [160, 180, 100, 120, 15],
     instructions := "Cook brown rice. Stir-fry protein with bell peppers. Steam broccoli separately. Combine and drizzle with soy sauce." },
   { name := "Power Salad",
     ingredients := [⟨protein, 150, "grilled"⟩, ⟨"mixed greens", 100, "fresh"⟩,
                     ⟨"avocado", 60, "sliced"⟩, ⟨"sweet potato", 120, "roasted"⟩, ⟨"olive oil", 8, "drizzle"⟩],
     nutrition := calculate_nutrition [protein, "mixed greens", "avocado", "sweet potato", "olive oil"] [150, 100, 60, 120, 8],
     instructions := "Grill protein and roast sweet potato. Arrange mixed greens in bowl. Top with sliced avocado, protein, and sweet potato. Drizzle with olive oil." }]

/-- `_suggest_dinner` (protein "lentils" when vegetarian, "salmon"
otherwise). -/
def suggest_dinner (preferences _targets : List (String × Val)) : List MealOption :=
  let vegetarian := has_vegetarian preferences
  let protein := if vegetarian then "lentils" else "salmon"
  [{ name := "Herb-Crusted Protein",
     ingredients := [⟨protein, 160, "baked"⟩, ⟨"sweet potato", 200, "roasted"⟩,
                     ⟨"asparagus", 100, "grilled"⟩, ⟨"olive oil", 8, "drizzle"⟩],
     nutrition := calculate_nutrition [protein, "sweet potato", "asparagus", "olive oil"] [160, 200, 100, 8],
     instructions := "Season protein with herbs and bake. Roast sweet potato and grill asparagus. Drizzle with olive oil and serve." },
   { name := "One-Pan Wonder",
     ingredients := [⟨protein, 150, "pan-seared"⟩, ⟨"zucchini", 120, "sautéed"⟩,
                     ⟨"bell pepper", 100, "sautéed"⟩, ⟨"brown rice", 150, "cooked"⟩, ⟨"olive oil", 10, "drizzle"⟩],
     nutrition := calculate_nutrition [protein, "zucchini", "bell pepper", "brown rice", "olive oil"] [150, 120, 100, 150, 10],
     instructions := "Cook brown rice. Pan-sear protein and sauté vegetables in the same pan. Serve over rice with olive oil drizzle." },
   { name := "Comfort Bowl",
     ingredients := [⟨protein, 140, "braised"⟩, ⟨"quinoa", 180, "cooked"⟩,
                     ⟨"carrots", 100, "roasted"⟩, ⟨"spinach", 80, "wilted"⟩, ⟨"olive oil", 8, "drizzle"⟩],
     nutrition := calculate_nutrition [protein, "quinoa", "carrots", "spinach", "olive oil"] [140, 180, 100, 80, 8],
     instructions := "Braise protein with herbs. Cook quinoa and roast carrots. Wilt spinach. Layer in bowl and drizzle with olive oil." }]

/-- `_suggest_snacks` (independent of the preferences). -/
def suggest_snacks (_preferences _targets : List (String × Val)) : List MealOption :=
  [{ name := "Energy Bites",
     ingredients := [⟨"almonds", 25, "chopped"⟩, ⟨"dates", 40, "pitted"⟩, ⟨"coconut", 10, "shredded"⟩],
     nutrition := calculate_nutrition ["almonds", "dates", "coconut"] [25, 40, 10],
     instructions := "Chop almonds and pit dates. Blend with coconut until sticky. Roll into small balls and refrigerate." },
   { name := "Greek Yogurt Parfait",
     ingredients := [⟨"greek yogurt", 120, "plain"⟩, ⟨"berries", 80, "fresh"⟩, ⟨"granola", 20, "homemade"⟩],
     nutrition := calculate_nutrition ["greek yogurt", "berries", "granola"] [120, 80, 20],
     instructions := "Layer yogurt, berries, and granola in a glass. Repeat layers and enjoy immediately." },
   { name := "Veggie Hummus",
     ingredients := [⟨"hummus", 60, "store-bought"⟩, ⟨"carrot sticks", 100, "fresh"⟩, ⟨"cucumber", 80, "sliced"⟩],
     nutrition := calculate_nutrition ["hummus", "carrot", "cucumber"] [60, 100, 80],
     instructions := "Cut carrots into sticks and slice cucumber. Serve with hummus for dipping." },
   { name := "Protein Smoothie",
     ingredients := [⟨"protein powder", 25, "vanilla"⟩, ⟨"banana", 100, "frozen"⟩,
                     ⟨"almond milk", 200, "unsweetened"⟩, ⟨"spinach", 30, "fresh"⟩],
     nutrition := calculate_nutrition ["protein powder", "banana", "almond milk", "spinach"] [25, 100, 200, 30],
     instructions := "Blend protein powder, frozen banana, almond milk, and spinach until smooth. Serve immediately." }]

/-- The per-meal dict stored under each day of `daily_meals`. The
nutrition keys are always present (the totals dict is initialised with
them), so the direct indexings in the source always succeed. -/
def mealEntry (m : MealOption) : Val :=
  vDict [("name", vStr m.name),
         ("calories", vNum (qGetD m.nutrition "kcal" 0)),
         ("protein_g", vNum (qGetD m.nutrition "protein_g" 0)),
         ("carbs_g", vNum (qGetD m.nutrition "carbs_g" 0)),
         ("fats_g", vNum (qGetD m.nutrition "fats_g" 0)),
         ("ingredients", vList (m.ingredients.map (fun i =>
           vDict [("name", vStr i.name), ("grams", vNum i.grams), ("method", vStr i.method)]))),
         ("instructions", vStr m.instructions)]

/-- Fallback meal for the list indexings `options[day % len(options)]`;
the index is always in range (the option lists have fixed positive
length), so this value is never used. -/
def dummyMeal : MealOption := { name := "", ingredients := [], nutrition := [], instructions := "" }

/-- The `daily_meals` dict of `_suggest_foods`: days 1..7, each selecting
options by `day % len(options)` and storing the same snack twice. -/
def suggest_days (preferences targets : List (String × Val)) : List (String × Val) :=
  ([1, 2, 3, 4, 5, 6, 7] : List ℕ).map (fun day =>
    let bOpts := suggest_breakfast preferences targets
    let lOpts := suggest_lunch preferences targets
    let dOpts := suggest_dinner preferences targets
    let sOpts := suggest_snacks preferences targets
    let b := bOpts.getD (day % bOpts.length) dummyMeal
    let l := lOpts.getD (day % lOpts.length) dummyMeal
    let dn := dOpts.getD (day % dOpts.length) dummyMeal
    let sn := sOpts.getD (day % sOpts.length) dummyMeal
    ("day_" ++ toString day,
     vDict [("breakfast", mealEntry b), ("lunch", mealEntry l), ("dinner", mealEntry dn),
            ("snack_1", mealEntry sn), ("snack_2", mealEntry sn)]))

/-- The totals loop of `_suggest_foods` over every meal of every day. -/
def dayMealTotals (daily_meals : List (String × Val)) : ℚ × ℚ × ℚ × ℚ :=
  daily_meals.foldl (fun acc dkv =>
    match dkv.2 with
    | vDict meals =>
      meals.foldl (fun a mkv =>
        match mkv.2 with
        | vDict kvs =>
          (a.1 + numGetD kvs "calories" 0, a.2.1 + numGetD kvs "protein_g" 0,
           a.2.2.1 + numGetD kvs "carbs_g" 0, a.2.2.2 + numGetD kvs "fats_g" 0)
        | _ => a) acc
    | _ => acc) (0, 0, 0, 0)

/-- The response content of `FoodKnowledgeAgent._suggest_foods`: exactly
the keys daily_meals, total_calories, total_protein, total_carbs,
total_fats, message (there is no "suggestions" key). -/
def suggest_foods_content (preferences targets : List (String × Val)) : List (String × Val) :=
  let daily := suggest_days preferences targets
  let t := dayMealTotals daily
  [("daily_meals", vDict daily),
   ("total_calories", vNum t.1),
   ("total_protein", vNum t.2.1),
   ("total_carbs", vNum t.2.2.1),
   ("total_fats", vNum t.2.2.2),
   ("message", vStr "Evidence-based 7-day meal plan tailored to your preferences")]

/-- `FoodKnowledgeAgent.process_message`. -/
def food_knowledge_process (m : A2AMessage) : Except String A2AMessage :=
  if m.message_type = .FOOD_SUGGESTION then
    .ok (agent_send_message "food_knowledge_agent" m.sender .RESPONSE
      (suggest_foods_content (asDictD (assocFind? m.content "preferences"))
                             (asDictD (assocFind? m.content "targets"))))
  else
    .ok (agent_send_message "food_knowledge_agent" m.sender .RESPONSE
      [("status", vStr "processed"), ("agent", vStr "food_knowledge_agent")])

/-- The food knowledge agent. -/
def foodKnowledgeAgentObj : Agent :=
  { agent_id := "food_knowledge_agent", process_message := food_knowledge_process }

/-! ## a2a/agents/restriction_safety_agent.py -/

/-- The allergen loop of `RestrictionSafetyAgent._check_safety`: for each
food, for each allergen of the profile, flag when the lowercased allergen
is a substring of the lowercased food name. -/
def allergy_issues (foods allergies : List String) : List String :=
  foods.foldl (fun issues food =>
    allergies.foldl (fun iss allergen =>
      if pyIn (pyToLower allergen) (pyToLower food) then
        iss ++ ["ALLERGY ALERT: " ++ food ++ " contains " ++ allergen]
      else iss) issues) []

/-- The `medication_interactions` table of the restriction agent. -/
def medication_interactions : List (String × List String) :=
  [("grapefruit", ["statins", "blood_pressure_meds"]),
   ("vitamin_k_foods", ["warfarin"]),
   ("tyramine_foods", ["maois"])]

/-- The medication loop of `_check_safety`. -/
def interaction_warnings (foods medications : List String) : List String :=
  foods.foldl (fun warnings food =>
    medication_interactions.foldl (fun ws ft =>
      ft.2.foldl (fun ws2 med =>
        if pyIn ft.1 (pyToLower food) && (medications.map pyToLower).contains med then
          ws2 ++ ["INTERACTION: " ++ food ++ " may interact with " ++ med]
        else ws2) ws) warnings) []

/-- The response content of `RestrictionSafetyAgent._check_safety`. -/
def check_safety_content (content : List (String × Val)) : List (String × Val) :=
  let foods := getStrListD content "foods"
  let user_profile := asDictD (assocFind? content "user_profile")
  let issues := allergy_issues foods (getStrListD user_profile "allergies")
  let warnings := interaction_warnings foods (getStrListD user_profile "medications")
  [("safe", vBool (issues.length == 0)),
   ("issues", strListVal issues),
   ("warnings", strListVal warnings),
   ("message", vStr ("Safety check complete: " ++ toString issues.length
     ++ " critical issues, " ++ toString warnings.length ++ " warnings"))]

/-- `RestrictionSafetyAgent.process_message`. -/
def restriction_safety_process (m : A2AMessage) : Except String A2AMessage :=
  if m.message_type = .SAFETY_CHECK then
    .ok (agent_send_message "restriction_safety_agent" m.sender .RESPONSE
      (check_safety_content m.content))
  else
    .ok (agent_send_message "restriction_safety_agent" m.sender .RESPONSE
      [("status", vStr "processed"), ("agent", vStr "restriction_safety_agent")])

/-- The restriction and safety agent. -/
def restrictionSafetyAgentObj : Agent :=
  { agent_id := "restriction_safety_agent", process_message := restriction_safety_process }

/-! ## a2a/agents/sustainability_environment_agent.py -/

/-- The carbon tables of the sustainability and environment agent. -/
def high_carbon : List String := ["beef", "lamb", "cheese"]

/-- Medium-carbon keyword table. -/
def medium_carbon : List String := ["chicken", "pork", "eggs"]

/-- Low-carbon keyword table. -/
def low_carbon : List String := ["tofu", "lentils", "vegetables", "fruits"]

/-- The `seasonal_months` table. -/
def seasonal_months : List (String × List ℕ) :=
  [("berries", [6, 7, 8]), ("pumpkin", [9, 10, 11]), ("citrus", [12, 1, 2])]

/-- One iteration of the food loop in `_check_sustainability`: adjust the
score by the elif chain, then append a suggestion for each out-of-season
match (the seasonal check never touches the score). -/
def sustainability_step (current_month : ℕ) (acc : ℤ × List String) (food : String) :
    ℤ × List String :=
  let fl := pyToLower food
  let acc1 :=
    if high_carbon.any (fun k => pyIn k fl) then
      (acc.1 - 3, acc.2 ++ ["Consider replacing " ++ food ++ " with plant-based alternative"])
    else if medium_carbon.any (fun k => pyIn k fl) then (acc.1 - 1, acc.2)
    else if low_carbon.any (fun k => pyIn k fl) then (acc.1 + 2, acc.2)
    else acc
  seasonal_months.foldl (fun a sm =>
    if pyIn sm.1 fl && !(sm.2.contains current_month) then
      (a.1, a.2 ++ [food ++ " is not in season - consider local alternatives"])
    else a) acc1

/-- The response content of
`SustainabilityEnvironmentAgent._check_sustainability`; `current_month`
models `datetime.now().month`. -/
def check_sustainability_content (content : List (String × Val)) (current_month : ℕ) :
    List (String × Val) :=
  let foods := getStrListD content "foods"
  let r := foods.foldl (sustainability_step current_month) (0, [])
  [("sustainability_score", vNum (r.1 : ℚ)),
   ("suggestions", strListVal r.2),
   ("message", vStr ("Sustainability score: " ++ toString r.1 ++ "/10"))]

/-- `SustainabilityEnvironmentAgent.process_message` (agent id
"sustainability_agent"). -/
def sustainability_environment_process (current_month : ℕ) (m : A2AMessage) :
    Except String A2AMessage :=
  if m.message_type = .SUSTAINABILITY_CHECK then
    .ok (agent_send_message "sustainability_agent" m.sender .RESPONSE
      (check_sustainability_content m.content current_month))
  else
    .ok (agent_send_message "sustainability_agent" m.sender .RESPONSE
      [("status", vStr "processed"), ("agent", vStr "sustainability_agent")])

/-- The sustainability and environment agent. -/
def sustainabilityEnvironmentAgentObj (current_month : ℕ) : Agent :=
  { agent_id := "sustainability_agent",
    process_message := sustainability_environment_process current_month }

/-! ## a2a/agents/budget_accessibility_agent.py -/

/-- The "expensive" tier of the agent price database. -/
def price_database_expensive : List String := ["quinoa", "salmon", "almonds", "avocado"]

/-- The "affordable" tier of the agent price database. -/
def price_database_affordable : List String := ["brown rice", "chicken", "lentils", "banana"]

/-- The "budget" tier of the agent price database (read only by
`get_insights`, never by the cost loop). -/
def price_database_budget : List String := ["oats", "eggs", "carrots", "apple"]

/-- One iteration of the food loop of
`BudgetAccessibilityAgent._check_budget`: substitutions for a "low"
budget plus the three-tier cost sum ($15 for an exact lowercased match
in the expensive list, $8 in the affordable list, $3 otherwise). -/
def budget_fold_step (budget_level : String) (acc : List (String × Val) × ℤ)
    (food : String) : List (String × Val) × ℤ :=
  let fl := pyToLower food
  let subs :=
    if budget_level = "low" && price_database_expensive.any (fun e => pyIn e fl) then
      if pyIn "quinoa" fl then assocSet acc.1 food (vStr "brown rice")
      else if pyIn "salmon" fl then assocSet acc.1 food (vStr "chicken")
      else if pyIn "almonds" fl then assocSet acc.1 food (vStr "peanuts")
      else acc.1
    else acc.1
  let cost :=
    if price_database_expensive.contains fl then acc.2 + 15
    else if price_database_affordable.contains fl then acc.2 + 8
    else acc.2 + 3
  (subs, cost)

/-- The response content of `BudgetAccessibilityAgent._check_budget`
(continued): fold the loop over the foods and build the response. -/
def check_budget_content (content : List (String × Val)) : List (String × Val) :=
  let budget_level := getStrD content "budget_level" "medium"
  let foods := getStrListD content "foods"
  let r := foods.foldl (budget_fold_step budget_level) ([], 0)
  [("budget_friendly", vBool (decide (r.2 ≤ 20))),
   ("substitutions", vDict r.1),
   ("estimated_cost", vNum (r.2 : ℚ)),
   ("message", vStr ("Budget check complete: $" ++ toString r.2 ++ " estimated cost"))]

/-- `BudgetAccessibilityAgent.process_message`. -/
def budget_accessibility_process (m : A2AMessage) : Except String A2AMessage :=
  if m.message_type = .BUDGET_CHECK then
    .ok (agent_send_message "budget_accessibility_agent" m.sender .RESPONSE
      (check_budget_content m.content))
  else
    .ok (agent_send_message "budget_accessibility_agent" m.sender .RESPONSE
      [("status", vStr "processed"), ("agent", vStr "budget_accessibility_agent")])

/-- The budget and accessibility agent. -/
def budgetAccessibilityAgentObj : Agent :=
  { agent_id := "budget_accessibility_agent", process_message := budget_accessibility_process }

/-! ## a2a/agents/cost_analysis_agent.py and sustainability_agent.py:
the per-ingredient estimators -/

/-- Remove every occurrence of the non-empty pattern `p :: ps` from the
list, scanning left to right without overlap (Python `str.replace` with
an empty replacement). The fuel argument only makes the recursion
structural (each step consumes one unit and drops at least one list
element); it is always called with more fuel than the list is long, so
the fuel never runs out. -/
def removeOcc (p : Char) (ps : List Char) : ℕ → List Char → List Char
  | 0, _ => []
  | _ + 1, [] => []
  | fuel + 1, c :: rest =>
    if (p :: ps).isPrefixOf (c :: rest) then removeOcc p ps fuel (rest.drop ps.length)
    else c :: removeOcc p ps fuel rest

/-- Python `s.replace(pat, "")`. -/
def pyRemoveAll (s pat : String) : String :=
  match pat.toList with
  | [] => s
  | p :: ps => ⟨removeOcc p ps (s.toList.length + 1) s.toList⟩

/-- Python `s.strip()` on ASCII whitespace. -/
def pyStrip (s : String) : String :=
  ⟨((s.toList.dropWhile Char.isWhitespace).reverse.dropWhile Char.isWhitespace).reverse⟩

/-- The `grams` block of `estimate_item_cost` (a2a/agents/cost_analysis_agent.py):
the `"g" in amount` substring branch runs first (so any "kg" amount also
enters it, drops every "g", and fails to parse), the `"kg"` elif is dead,
"cup" gives 100, anything else the 50 g default; a parse failure falls
back to 50 via the enclosing `except`. -/
def resolve_grams_cost (amount : String) : ℚ :=
  if pyIn "g" amount then (pyFloat? (pyStrip (pyRemoveAll amount "g"))).getD 50
  else if pyIn "kg" amount then
    match pyFloat? (pyStrip (pyRemoveAll amount "kg")) with
    | some q => q * 1000
    | none => 50
  else if pyIn "cup" amount then 100
  else 50

/-- `PRICE_TABLE` from cost_analysis_agent.py (USD per gram). -/
def PRICE_TABLE : List (String × ℚ) :=
  [("chicken", 12/1000), ("salmon", 2/100), ("beef", 18/1000), ("oats", 2/1000),
   ("apple", 3/1000), ("banana", 25/10000), ("broccoli", 4/1000), ("rice", 15/10000),
   ("yogurt", 5/1000), ("almonds", 1/100)]

/-- The lookup loop shared by both estimators: first table key that is a
substring of the lowercased name wins, otherwise the default rate. -/
def lookup_rate (table : List (String × ℚ)) (dflt : ℚ) (lower : String) : ℚ :=
  match table with
  | [] => dflt
  | (k, r) :: rest => if pyIn k lower then r else lookup_rate rest dflt lower

/-- `estimate_item_cost` from cost_analysis_agent.py. -/
def estimate_item_cost (name amount : String) : ℚ :=
  let lower := pyToLower name
  let grams := resolve_grams_cost amount
  grams * lookup_rate PRICE_TABLE (3/1000) lower

/-- The `grams` block of `estimate_co2e`
(a2a/agents/sustainability_agent.py): same dead "kg" elif, but no "cup"
branch and a 100 g default (also used on parse failure). -/
def resolve_grams_co2e (amount : String) : ℚ :=
  if pyIn "g" amount then (pyFloat? (pyStrip (pyRemoveAll amount "g"))).getD 100
  else if pyIn "kg" amount then
    match pyFloat? (pyStrip (pyRemoveAll amount "kg")) with
    | some q => q * 1000
    | none => 100
  else 100

/-- `FOOTPRINT` from sustainability_agent.py (kg CO2e per kg). -/
def FOOTPRINT : List (String × ℚ) :=
  [("beef", 27), ("lamb", 39), ("pork", 12), ("chicken", 69/10), ("fish", 54/10),
   ("rice", 27/10), ("beans", 8/10), ("lentils", 9/10), ("oats", 1), ("vegetable", 5/10)]

/-- `estimate_co2e` from sustainability_agent.py. -/
def estimate_co2e (name amount : String) : ℚ :=
  let lower := pyToLower name
  let grams := resolve_grams_co2e amount
  grams / 1000 * lookup_rate FOOTPRINT (12/10) lower

/-! ## a2a/orchestrator.py: A2ADietitianOrchestrator.create_comprehensive_plan -/

/-- The `flow` record built by `create_comprehensive_plan` (a dict in the
source, with exactly these keys; `errorMsg` models the "error" key set in
the except branch). -/
structure Flow where
  flow_id : String
  user_profile : List (String × Val)
  health_data : List (String × Val)
  feedback : List (String × Val)
  messages : List Val
  results : List (String × Val)
  errorMsg : Option String

/-- The dietitian orchestrator: the base dispatcher state plus the
`conversation_flows` log. -/
structure A2ADietitianOrchestrator extends A2AOrchestrator where
  conversation_flows : List Flow := []

/-- State threaded through one `create_comprehensive_plan` run: the
orchestrator and the mutable `flow` dict. -/
def PState := A2ADietitianOrchestrator × Flow

/-- The try-block monad of `create_comprehensive_plan`: state plus the
Python exception channel; an exception carries the state at the raise
(the `flow` dict is mutated in place, so the except branch sees the
partial flow). -/
def PipeM (α : Type) := PState → Except (String × PState) (α × PState)

/-- Bind for `PipeM` (noinline keeps compiled code linear in the number
of pipeline steps). -/
@[noinline] def PipeM.bindFn {α β : Type} (x : PipeM α) (f : α → PipeM β) : PipeM β :=
  fun s => match x s with
  | .error e => .error e
  | .ok (a, s') => f a s'

/-- Pure for `PipeM`. -/
def PipeM.pureFn {α : Type} (a : α) : PipeM α := fun s => .ok (a, s)

instance : Monad PipeM where
  pure := PipeM.pureFn
  bind := PipeM.bindFn

/-- `self.send_message(...)` inside the try block. -/
def sendP (m : A2AMessage) : PipeM A2AMessage := fun s =>
  match s.1.toA2AOrchestrator.send_message m with
  | .error e => .error (e, s)
  | .ok (r, o') => .ok (r, ({ s.1 with toA2AOrchestrator := o' }, s.2))

/-- `flow["messages"].append(...)`. -/
def pushMessageP (v : Val) : PipeM Unit := fun s =>
  .ok ((), (s.1, { s.2 with messages := s.2.messages ++ [v] }))

/-- `flow["results"][k] = v`. -/
def setResultP (k : String) (v : Val) : PipeM Unit := fun s =>
  .ok ((), (s.1, { s.2 with results := assocSet s.2.results k v }))

/-- Python `d[k]`: KeyError when the key is absent. -/
def getItemP (d : List (String × Val)) (k : String) : PipeM Val := fun s =>
  match assocFind? d k with
  | some v => .ok (v, s)
  | none => .error ("KeyError: " ++ k, s)

/-- Raise an exception. -/
def raiseP {α : Type} (e : String) : PipeM α := fun s => .error (e, s)

/-- Read the current flow record. -/
def getFlowP : PipeM Flow := fun s => .ok (s.2, s)

/-- Read the current orchestrator. -/
def getOrchP : PipeM A2ADietitianOrchestrator := fun s => .ok (s.1, s)

/-- `self.conversation_flows.append(flow)`. -/
def recordFlowP : PipeM Unit := fun s =>
  .ok ((), ({ s.1 with conversation_flows := s.1.conversation_flows ++ [s.2] }, s.2))

/-- Python truthiness of an optional dict argument (None and the empty
dict are both falsy). -/
def pyTruthyOptDict (o : Option (List (String × Val))) : Bool :=
  match o with
  | none => false
  | some d => !d.isEmpty

/-- The ingredient-name collection loop of step 4 of
`create_comprehensive_plan` (dead code in every run: the lookup of
"suggestions" one line earlier always raises; the unmodelled KeyError on
an ingredient dict without "name" can therefore never fire). -/
def collect_food_names (v : Val) : List String :=
  match v with
  | vDict mealTypes =>
    mealTypes.foldl (fun acc mt =>
      match mt.2 with
      | vList meals =>
        meals.foldl (fun a meal =>
          match meal with
          | vDict mkvs =>
            (match assocFind? mkvs "ingredients" with
             | some (vList ings) =>
               a ++ ings.foldr (fun ing acc2 =>
                 match ing with
                 | vDict ikvs =>
                   (match assocFind? ikvs "name" with
                    | some (vStr s) => s :: acc2
                    | _ => acc2)
                 | _ => acc2) []
             | _ => a)
          | _ => a) acc
      | _ => acc) []
  | _ => []

/-- A request message sent by the orchestrator inside
`create_comprehensive_plan` (sender "orchestrator", default priority). -/
def orch_msg (recipient : String) (mt : MessageType) (content : List (String × Val)) : A2AMessage :=
  { sender := "orchestrator", recipient := recipient, message_type := mt,
    priority := .NORMAL, content := content }

/-- Steps 1-3 of the try block of `create_comprehensive_plan`: preference
update, goal analysis, food suggestions (returns the three responses). -/
def try_steps_1_3 (p : UserProfile) : PipeM (A2AMessage × A2AMessage × A2AMessage) := do
  let pref_response ← sendP (orch_msg "preference_agent" .PREFERENCE_UPDATE (userProfileDict p))
  pushMessageP pref_response.to_dict
  let goal_response ← sendP (orch_msg "goal_agent" .GOAL_ANALYSIS
    [("profile", vDict (userProfileDict p))])
  pushMessageP goal_response.to_dict
  setResultP "nutritional_blueprint" (vDict goal_response.content)
  let prof ← getItemP pref_response.content "profile"
  let targ ← getItemP goal_response.content "targets"
  let food_response ← sendP (orch_msg "food_knowledge_agent" .FOOD_SUGGESTION
    [("preferences", prof), ("targets", targ)])
  pushMessageP food_response.to_dict
  setResultP "food_suggestions" (vDict food_response.content)
  PipeM.pureFn (pref_response, goal_response, food_response)

/-- Steps 4-8 of the try block: the safety check indexes
`food_response.content["suggestions"]` (which always raises KeyError,
since the food response has no such key), then cultural adaptation
(whose content reads the non-existent attribute
`user_profile.cuisine_preferences`), budget, timing (reading the
likewise non-existent `work_schedule_notes`) and sustainability. -/
def try_steps_4_8 (p : UserProfile) (food_response : A2AMessage) : PipeM (List String) := do
  let suggestions ← getItemP food_response.content "suggestions"
  let foods_to_check := collect_food_names suggestions
  let safety_response ← sendP (orch_msg "restriction_safety_agent" .SAFETY_CHECK
    [("foods", strListVal foods_to_check), ("user_profile", vDict (userProfileDict p))])
  pushMessageP safety_response.to_dict
  setResultP "safety_check" (vDict safety_response.content)
  let cuisine ← (raiseP "AttributeError: cuisine_preferences" : PipeM Val)
  let cultural_response ← sendP (orch_msg "cultural_lifestyle_agent" .CULTURAL_ADAPTATION
    [("cuisine_preference", cuisine),
     ("dietary_preferences", strListVal p.dietary_preferences),
     ("suggestions", suggestions)])
  pushMessageP cultural_response.to_dict
  setResultP "cultural_adaptations" (vDict cultural_response.content)
  let budget_response ← sendP (orch_msg "budget_accessibility_agent" .BUDGET_CHECK
    [("budget_level", vStr p.budget_level), ("foods", strListVal foods_to_check)])
  pushMessageP budget_response.to_dict
  setResultP "budget_check" (vDict budget_response.content)
  let notes ← (raiseP "AttributeError: work_schedule_notes" : PipeM Val)
  let timing_response ← sendP (orch_msg "meal_timing_agent" .TIMING_SUGGESTION
    [("schedule", vDict [("training_days", numListVal p.training_days),
                         ("work_schedule", vDict [("notes", notes)])])])
  pushMessageP timing_response.to_dict
  setResultP "meal_timing" (vDict timing_response.content)
  let sustainability_response ← sendP (orch_msg "sustainability_agent" .SUSTAINABILITY_CHECK
    [("foods", strListVal foods_to_check)])
  pushMessageP sustainability_response.to_dict
  setResultP "sustainability_check" (vDict sustainability_response.content)
  PipeM.pureFn foods_to_check

/-- Steps 9-13 of the try block: optional medical and feedback steps,
emergency check, motivation, then recording the flow and building the
success result. -/
def try_steps_9_13 (p : UserProfile) (health_data feedback : Option (List (String × Val))) :
    PipeM (List (String × Val)) := do
  if pyTruthyOptDict health_data then
    let medical_response ← sendP (orch_msg "medical_biomarker_agent" .MEDICAL_ALERT
      [("biomarkers", vDict (health_data.getD []))])
    pushMessageP medical_response.to_dict
    setResultP "medical_analysis" (vDict medical_response.content)
  let emergency_response ← sendP (orch_msg "emergency_risk_agent" .EMERGENCY_ALERT
    [("health_data", vDict (health_data.getD [])),
     ("user_profile", vDict (userProfileDict p))])
  pushMessageP emergency_response.to_dict
  setResultP "emergency_check" (vDict emergency_response.content)
  if pyTruthyOptDict feedback then
    let feedback_response ← sendP (orch_msg "feedback_learning_agent" .FEEDBACK_PROCESSING
      [("feedback", vDict (feedback.getD [])),
       ("user_id", vStr (if p.name = "" then "user" else p.name))])
    pushMessageP feedback_response.to_dict
    setResultP "feedback_analysis" (vDict feedback_response.content)
  if pyTruthyOptDict feedback then
    let fl ← getFlowP
    let adaptation_response ← sendP (orch_msg "adaptation_agent" .ADAPTATION_REQUEST
      [("feedback", vDict (feedback.getD [])), ("current_plan", vDict fl.results)])
    pushMessageP adaptation_response.to_dict
    setResultP "adaptations" (vDict adaptation_response.content)
  let motivation_response ← sendP (orch_msg "motivation_education_agent" .MOTIVATION_MESSAGE
    [("context", vStr "comprehensive_plan_created"),
     ("progress", if pyTruthyOptDict feedback then
       vGetD (feedback.getD []) "progress" (vDict []) else vDict [])])
  pushMessageP motivation_response.to_dict
  setResultP "motivation" (vDict motivation_response.content)
  recordFlowP
  let fl ← getFlowP
  let orch ← getOrchP
  PipeM.pureFn
    [("flow_id", vStr fl.flow_id), ("status", vStr "success"),
     ("summary", vDict
       [("nutritional_blueprint", vGetD fl.results "nutritional_blueprint" vNull),
        ("food_suggestions", vGetD fl.results "food_suggestions" vNull),
        ("safety_check", vGetD fl.results "safety_check" vNull),
        ("cultural_adaptations", vGetD fl.results "cultural_adaptations" vNull),
        ("budget_check", vGetD fl.results "budget_check" vNull),
        ("meal_timing", vGetD fl.results "meal_timing" vNull),
        ("sustainability_check", vGetD fl.results "sustainability_check" vNull),
        ("emergency_check", vGetD fl.results "emergency_check" vNull),
        ("motivation", vGetD fl.results "motivation" vNull)]),
     ("agent_status", orch.toA2AOrchestrator.get_agent_status)]

/-- The whole try block. -/
def create_try_body (p : UserProfile) (health_data feedback : Option (List (String × Val))) :
    PipeM (List (String × Val)) := do
  let r13 ← try_steps_1_3 p
  let _ ← try_steps_4_8 p r13.2.2
  try_steps_9_13 p health_data feedback

/-- `A2ADietitianOrchestrator.create_comprehensive_plan` from
a2a/orchestrator.py; `clock` models the `datetime.now().strftime`
fragment of the flow id. On an exception the flow (with its "error" key
set) is appended to `conversation_flows` and an error result returned. -/
def create_comprehensive_plan (d : A2ADietitianOrchestrator) (clock : String) (p : UserProfile)
    (health_data feedback : Option (List (String × Val))) :
    List (String × Val) × A2ADietitianOrchestrator :=
  match create_try_body p health_data feedback (d,
      { flow_id := "flow_" ++ clock, user_profile := userProfileDict p,
        health_data := health_data.getD [], feedback := feedback.getD [],
        messages := [], results := [], errorMsg := none }) with
  | .ok (res, (d2, _)) => (res, d2)
  | .error (e, (d2, fl)) =>
    ([("flow_id", vStr ("flow_" ++ clock)), ("status", vStr "error"), ("error", vStr e),
      ("agent_status", ({ d2 with conversation_flows :=
          d2.conversation_flows ++ [{ fl with errorMsg := some e }] }
        : A2ADietitianOrchestrator).toA2AOrchestrator.get_agent_status)],
     { d2 with conversation_flows := d2.conversation_flows ++ [{ fl with errorMsg := some e }] })

/-! ## Specification-side helper definitions and concrete fixtures -/

/-- Per-food score of the sustainability elif chain, as the specification
states it: -3 for a high-carbon keyword match, else -1 for medium, else
+2 for low, else 0. -/
def sustainability_item_score (food : String) : ℤ :=
  if high_carbon.any (fun k => pyIn k (pyToLower food)) then -3
  else if medium_carbon.any (fun k => pyIn k (pyToLower food)) then -1
  else if low_carbon.any (fun k => pyIn k (pyToLower food)) then 2
  else 0

/-- Per-food price of the budget cost loop, as the specification states
it: $15 for an exact lowercased match in the expensive tier, else $8 in
the affordable tier, else $3. -/
def budget_item_cost (food : String) : ℤ :=
  if price_database_expensive.contains (pyToLower food) then 15
  else if price_database_affordable.contains (pyToLower food) then 8
  else 3

/-- An agent whose handler always returns a response carrying the agent
own id as sender; every agent class of this repository builds its
responses through `Agent.send_message`, which does exactly that, though
some handlers can raise on malformed content. -/
def responds_ok_as_self (a : Agent) : Prop :=
  ∀ m, ∃ r, a.process_message m = .ok r ∧ r.sender = a.agent_id

/-- An orchestrator with no registered agents. -/
def empty_orch : A2AOrchestrator := {}

/-- An orchestrator with only the goal agent registered. -/
def goal_only_orch : A2AOrchestrator := { agents := [goalAgentObj "20240101"] }

/-- An orchestrator with only the restriction and safety agent. -/
def restriction_only_orch : A2AOrchestrator := { agents := [restrictionSafetyAgentObj] }

/-- An orchestrator with the restriction and budget agents registered in
this order. -/
def two_agent_orch : A2AOrchestrator :=
  { agents := [restrictionSafetyAgentObj, budgetAccessibilityAgentObj] }

/-- A safety-check request whose profile lists the allergy "nuts" and
whose food list is exactly ["almonds"]. -/
def almonds_request : List (String × Val) :=
  [("foods", strListVal ["almonds"]),
   ("user_profile", vDict [("allergies", strListVal ["nuts"]),
                           ("medications", strListVal [])])]

/-- A safety-check request whose profile lists the allergy "nuts" and
whose food list is exactly ["mixed nuts"]. -/
def mixed_nuts_request : List (String × Val) :=
  [("foods", strListVal ["mixed nuts"]),
   ("user_profile", vDict [("allergies", strListVal ["nuts"]),
                           ("medications", strListVal [])])]

/-- A dietitian orchestrator state whose registry starts with the three
agents that `create_comprehensive_plan` invokes before its failing step,
each as freshly registered by `_register_all_agents` except that the
preference agent may carry an accumulated profile `st`; `rest` stands
for the remaining registered agents (the real orchestrator registers
fifteen more after these three), `hist` and `flows` for any existing
history. -/
def dietitian_base_orch (st : List (String × Val)) (clock : String) (rest : List Agent)
    (hist : List A2AMessage) (flows : List Flow) : A2ADietitianOrchestrator :=
  { agents := preferenceAgentObj st :: goalAgentObj clock :: foodKnowledgeAgentObj :: rest,
    message_history := hist, conversation_flows := flows }

/-- The complete profile dict the goal agent builds
(`{**defaults, **profile_data}` for a full profile dict): the five default
keys, overwritten in place, followed by the fifteen remaining profile
fields in insertion order. -/
def merged_profile (p : UserProfile) : List (String × Val) :=
  [("cooking_skill", vStr p.cooking_skill),
   ("time_availability", vStr p.time_availability),
   ("training_days", numListVal p.training_days),
   ("medical_conditions", strListVal p.medical_conditions),
   ("medications", strListVal p.medications),
   ("name", vStr p.name), ("age", vNum p.age), ("gender", vStr p.gender),
   ("height_cm", vNum p.height_cm), ("weight_kg", vNum p.weight_kg),
   ("activity_level", vStr p.activity_level), ("goal_type", vStr p.goal_type),
   ("dietary_preferences", strListVal p.dietary_preferences),
   ("allergies", strListVal p.allergies),
   ("intolerances", strListVal p.intolerances),
   ("disliked_foods", strListVal p.disliked_foods),
   ("avoid_ingredients", strListVal p.avoid_ingredients),
   ("cuisine_preference", vStr p.cuisine_preference),
   ("budget_level", vStr p.budget_level),
   ("country", vStr p.country)]

/-- The macro targets the goal agent computes for profile `p`. -/
def goal_targets (p : UserProfile) : MacroPlan :=
  plan_energy_and_macros p.weight_kg p.height_cm p.age p.gender p.activity_level p.goal_type

/-- The PREFERENCE_UPDATE request of step 1 of the pipeline. -/
@[reducible] def pref_msg (p : UserProfile) : A2AMessage :=
  orch_msg "preference_agent" .PREFERENCE_UPDATE (userProfileDict p)

/-- The GOAL_ANALYSIS request of step 2 of the pipeline. -/
@[reducible] def goal_msg (p : UserProfile) : A2AMessage :=
  orch_msg "goal_agent" .GOAL_ANALYSIS [("profile", vDict (userProfileDict p))]

/-- The FOOD_SUGGESTION request of step 3 of the pipeline (profile and
targets read back from the step 1 and step 2 responses). -/
@[reducible] def food_msg (st : List (String × Val)) (p : UserProfile) : A2AMessage :=
  orch_msg "food_knowledge_agent" .FOOD_SUGGESTION
    [("preferences", vDict (assocUpdate st (userProfileDict p))),
     ("targets", vDict (macroPlanDict (goal_targets p)))]

/-- The preference agent response of step 1. -/
def pref_resp (st : List (String × Val)) (p : UserProfile) : A2AMessage :=
  agent_send_message "preference_agent" "orchestrator" .RESPONSE
    [("status", vStr "preferences_updated"),
     ("profile", vDict (assocUpdate st (userProfileDict p))),
     ("message", vStr "Preferences logged and will be respected in all meal suggestions")]

/-- The goal agent response of step 2. -/
def goal_response (clock : String) (p : UserProfile) : A2AMessage :=
  agent_send_message "goal_agent" "orchestrator" .RESPONSE
    [("blueprint_id", vStr ("blueprint_" ++ p.name ++ "_" ++ clock)),
     ("targets", vDict (macroPlanDict (goal_targets p))),
     ("tdee", vNum (goal_targets p).tdee),
     ("message", vStr ("Nutritional blueprint created for " ++ p.goal_type ++ " goal"))]

/-- The food knowledge agent response of step 3 (its content reads the
preferences and targets back out of the request). -/
def food_resp (st : List (String × Val)) (p : UserProfile) : A2AMessage :=
  agent_send_message "food_knowledge_agent" "orchestrator" .RESPONSE
    (suggest_foods_content (asDictD (assocFind? (food_msg st p).content "preferences"))
                           (asDictD (assocFind? (food_msg st p).content "targets")))

/-- The orchestrator after one successful dispatch of `m` answered by `r`. -/
def d_after (d : A2ADietitianOrchestrator) (m r : A2AMessage) : A2ADietitianOrchestrator :=
  { d with toA2AOrchestrator :=
      { agents := updateAgent d.agents m.recipient (fun x => x.receive_message m),
        message_history := d.message_history ++ [m, r] } }

/-- The fresh flow record built at the top of `create_comprehensive_plan`. -/
@[reducible] def flow0_of (clock : String) (p : UserProfile)
    (hd fb : Option (List (String × Val))) : Flow :=
  { flow_id := "flow_" ++ clock, user_profile := userProfileDict p,
    health_data := hd.getD [], feedback := fb.getD [],
    messages := [], results := [], errorMsg := none }

/-- The flow record after pipeline steps 1-3: three exchanged messages
and two recorded results. -/
def flow_after_3 (st : List (String × Val)) (clock : String) (p : UserProfile)
    (f0 : Flow) : Flow :=
  { f0 with
    messages := ((f0.messages ++ [(pref_resp st p).to_dict])
      ++ [(goal_response clock p).to_dict]) ++ [(food_resp st p).to_dict],
    results := assocSet (assocSet f0.results "nutritional_blueprint"
      (vDict (goal_response clock p).content)) "food_suggestions"
      (vDict (food_resp st p).content) }

/-- C3: `plan_energy_and_macros` applies the goal adjustment (-500 for
"weight_loss", +300 for "muscle_gain", 0 otherwise) to the TDEE, sets
protein to 2 g per kg body weight, fats to 25% of target calories at
9 kcal/g, carbs to the remaining calories at 4 kcal/g, and the constants
fiber 25 g and sodium 2300 mg. -/
theorem claim3_energy_and_macros (w h a : ℚ) (g act goal : String) :
    (plan_energy_and_macros w h a g act goal).target_calories =
      (if goal = "weight_loss" then
        calculate_tdee (calculate_bmr_mifflin w h a g) act - 500
      else if goal = "muscle_gain" then
        calculate_tdee (calculate_bmr_mifflin w h a g) act + 300
      else calculate_tdee (calculate_bmr_mifflin w h a g) act)
    ∧ (plan_energy_and_macros w h a g act goal).protein_g = 2 * w
    ∧ (plan_energy_and_macros w h a g act goal).fats_g =
        (plan_energy_and_macros w h a g act goal).target_calories * (25/100) / 9
    ∧ (plan_energy_and_macros w h a g act goal).carbs_g =
        ((plan_energy_and_macros w h a g act goal).target_calories
          - (plan_energy_and_macros w h a g act goal).protein_g * 4
          - (plan_energy_and_macros w h a g act goal).fats_g * 9) / 4
    ∧ (plan_energy_and_macros w h a g act goal).fiber_g = 25
    ∧ (plan_energy_and_macros w h a g act goal).sodium_mg = 2300 := by
  refine ⟨rfl, ?_, rfl, rfl, rfl, rfl⟩
  show w * 2 = 2 * w
  ring

/-- C4: `calculate_tdee` multiplies the BMR by the table entry for the
activity level (sedentary 1.2, lightly active 1.375, moderately active
1.55, very active 1.725, extremely active 1.9) and by the default 1.2 for
any level not in the table. -/
theorem claim4_tdee_multipliers (bmr : ℚ) (level : String) :
    calculate_tdee bmr "sedentary" = bmr * (6/5)
    ∧ calculate_tdee bmr "lightly active" = bmr * (11/8)
    ∧ calculate_tdee bmr "moderately active" = bmr * (31/20)
    ∧ calculate_tdee bmr "very active" = bmr * (69/40)
    ∧ calculate_tdee bmr "extremely active" = bmr * (19/10)
    ∧ (assocFind? activity_multipliers (pyToLower level) = none →
        calculate_tdee bmr level = bmr * (6/5)) := by
  refine ⟨rfl, rfl, rfl, rfl, rfl, ?_⟩
  intro hnone
  unfold calculate_tdee
  rw [hnone]
  rfl

/-- Witness for C4: the level "swimming" is not in the multiplier table and
gets the 1.2 default. -/
theorem claim4_witness :
    assocFind? activity_multipliers (pyToLower "swimming") = none
    ∧ calculate_tdee 2000 "swimming" = 2000 * (6/5) :=
  ⟨by decide, (claim4_tdee_multipliers 2000 "swimming").2.2.2.2.2 (by decide)⟩

/-- C5 counterexample: for weight 70 kg, height 175 cm, age 30, gender
"male", the BMR is not 1673.75 kcal as the claim states:
10*70 + 6.25*175 - 5*30 + 5 = 1648.75, not 1673.75. -/
theorem claim5_counterexample :
    ¬ (calculate_bmr_mifflin 70 175 30 "male" = 6695/4) := by
  unfold calculate_bmr_mifflin
  rw [if_pos (Or.inl (show pyToLower "male" = "male" by decide))]
  norm_num

/-- C5 (amended): for weight 70 kg, height 175 cm, age 30, gender "male",
the BMR equals exactly 1648.75 kcal. -/
theorem claim5_bmr_value :
    calculate_bmr_mifflin 70 175 30 "male" = 6595/4 := by
  unfold calculate_bmr_mifflin
  rw [if_pos (Or.inl (show pyToLower "male" = "male" by decide))]
  norm_num

/-- A fold whose step never changes the first component keeps it. -/
theorem foldl_fst_eq {α γ : Type} (step : (ℤ × List γ) → α → (ℤ × List γ))
    (h : ∀ acc x, (step acc x).1 = acc.1) (l : List α) :
    ∀ acc, (l.foldl step acc).1 = acc.1 := by
  induction l with
  | nil => intro acc; rfl
  | cons x t ih => intro acc; rw [List.foldl_cons, ih, h]

/-- One sustainability loop iteration adds exactly the per-item score to
the running score; the seasonal sub-loop never touches it. -/
theorem sustainability_step_fst (m : ℕ) (acc : ℤ × List String) (food : String) :
    (sustainability_step m acc food).1 = acc.1 + sustainability_item_score food := by
  unfold sustainability_step sustainability_item_score
  rw [foldl_fst_eq _ (fun acc1 sm => by split <;> rfl)]
  split_ifs <;> omega

/-- The sustainability fold computes the sum of the per-item scores. -/
theorem sustainability_fold_score (m : ℕ) (foods : List String) :
    ∀ acc, (foods.foldl (sustainability_step m) acc).1
      = acc.1 + (foods.map sustainability_item_score).sum := by
  induction foods with
  | nil => intro acc; simp
  | cons f t ih =>
    intro acc
    rw [List.foldl_cons, ih, sustainability_step_fst, List.map_cons, List.sum_cons]
    omega

/-- C8: the sustainability response scores the food list as the sum of
-3 per high-carbon keyword match, -1 per medium-carbon match (when no
high-carbon keyword matches), +2 per low-carbon match (when neither
matches); the seasonal check (for any current month) only adds
suggestions and never changes the score; and the food list
["beef", "lentils"] scores -3 + 2 = -1. -/
theorem claim8_sustainability_score (content : List (String × Val)) (current_month : ℕ) :
    assocFind? (check_sustainability_content content current_month) "sustainability_score"
      = some (vNum ((((getStrListD content "foods").map sustainability_item_score).sum : ℤ) : ℚ))
    ∧ assocFind? (check_sustainability_content [("foods", strListVal ["beef", "lentils"])]
        current_month) "sustainability_score" = some (vNum (-1)) := by
  constructor
  · rw [show assocFind? (check_sustainability_content content current_month) "sustainability_score"
        = some (vNum ((((getStrListD content "foods").foldl (sustainability_step current_month)
            ((0 : ℤ), ([] : List String))).1 : ℚ))) from rfl,
      sustainability_fold_score]
    norm_num
  · rw [show assocFind? (check_sustainability_content [("foods", strListVal ["beef", "lentils"])]
        current_month) "sustainability_score"
        = some (vNum (((["beef", "lentils"].foldl (sustainability_step current_month)
            ((0 : ℤ), ([] : List String))).1 : ℚ))) from rfl,
      sustainability_fold_score,
      show (["beef", "lentils"].map sustainability_item_score).sum = -1 by decide]
    norm_num

/-- One budget loop iteration adds exactly the per-item price to the
running total; the substitution bookkeeping never touches it. -/
theorem budget_step_snd (bl : String) (acc : List (String × Val) × ℤ) (food : String) :
    (budget_fold_step bl acc food).2 = acc.2 + budget_item_cost food := by
  unfold budget_fold_step budget_item_cost
  dsimp only
  split_ifs <;> omega

/-- The budget fold computes the sum of the per-item prices. -/
theorem budget_fold_cost (bl : String) (foods : List String) :
    ∀ acc, (foods.foldl (budget_fold_step bl) acc).2
      = acc.2 + (foods.map budget_item_cost).sum := by
  induction foods with
  | nil => intro acc; simp
  | cons f t ih =>
    intro acc
    rw [List.foldl_cons, ih, budget_step_snd, List.map_cons, List.sum_cons]
    omega

/-- C9: the budget response estimates the total cost as the sum over the
food list of $15 per food in the expensive tier, $8 per food in the
affordable tier and $3 otherwise, and sets budget_friendly exactly when
that total is at most $20. -/
theorem claim9_budget_cost (content : List (String × Val)) :
    assocFind? (check_budget_content content) "estimated_cost"
      = some (vNum ((((getStrListD content "foods").map budget_item_cost).sum : ℤ) : ℚ))
    ∧ assocFind? (check_budget_content content) "budget_friendly"
      = some (vBool (decide (((getStrListD content "foods").map budget_item_cost).sum ≤ 20))) := by
  constructor
  · rw [show assocFind? (check_budget_content content) "estimated_cost"
        = some (vNum ((((getStrListD content "foods").foldl
            (budget_fold_step (getStrD content "budget_level" "medium"))
            (([] : List (String × Val)), (0 : ℤ))).2 : ℚ))) from rfl,
      budget_fold_cost]
    norm_num
  · rw [show assocFind? (check_budget_content content) "budget_friendly"
        = some (vBool (decide (((getStrListD content "foods").foldl
            (budget_fold_step (getStrD content "budget_level" "medium"))
            (([] : List (String × Val)), (0 : ℤ))).2 ≤ 20))) from rfl,
      budget_fold_cost]
    norm_num

/-- C10 counterexample: the amount "2kg" does not resolve to 2000 g as
the claim states. It enters the `"g" in amount` branch first, the parse
of "2k" fails, and both estimators fall back to their defaults (50 g for
the cost estimator, 100 g for the CO2e estimator); the item cost of
("chicken", "2kg") is 50 g at $0.012/g. -/
theorem claim10_counterexample :
    resolve_grams_cost "2kg" = 50
    ∧ resolve_grams_co2e "2kg" = 100
    ∧ estimate_item_cost "chicken" "2kg" = 50 * (12/1000)
    ∧ ¬ (resolve_grams_cost "2kg" = 2000) := by
  refine ⟨rfl, rfl, rfl, ?_⟩
  intro h
  rw [show resolve_grams_cost "2kg" = (50 : ℚ) from rfl] at h
  norm_num at h

/-- `listInfix` decides list containment. -/
theorem listInfix_iff_infix (n : List Char) :
    ∀ h : List Char, listInfix n h = true ↔ n <:+: h := by
  intro h
  induction h with
  | nil =>
    simp [listInfix, List.isEmpty_iff]
  | cons c t ih =>
    simp [listInfix, List.isPrefixOf_iff_prefix, ih, List.infix_cons_iff]

/-- Any string containing "kg" also contains "g". -/
theorem pyIn_g_of_kg (amount : String) :
    pyIn "kg" amount = true → pyIn "g" amount = true := by
  intro h
  rw [pyIn, listInfix_iff_infix] at h ⊢
  exact List.IsInfix.trans ⟨['k'], [], rfl⟩ h

/-- C10 (amended): an amount containing "g" is parsed by deleting every
"g" and reading the rest as a number (so a plain "<n>g" gram suffix
parses as n grams, while any "kg" amount also contains "g", leaves an
unparsable "<n>k" behind and falls back to the default mass); the dead
"kg" elif branch is unreachable; "cup" amounts resolve to 100 g in the
cost estimator only; the default mass is 50 g in the cost estimator and
100 g in the CO2e estimator (which has no cup branch); and each
estimator multiplies the resolved mass by the first matching per-keyword
rate (with a default rate when no keyword matches). -/
theorem claim10_amount_resolution :
    (∀ amount, pyIn "kg" amount = true → pyIn "g" amount = true)
    ∧ resolve_grams_cost "200g" = 200
    ∧ resolve_grams_cost "1 cup" = 100
    ∧ resolve_grams_cost "1 slice" = 50
    ∧ resolve_grams_co2e "200g" = 200
    ∧ resolve_grams_co2e "1 cup" = 100
    ∧ resolve_grams_co2e "2kg" = 100
    ∧ (∀ name amount, estimate_item_cost name amount
        = resolve_grams_cost amount * lookup_rate PRICE_TABLE (3/1000) (pyToLower name))
    ∧ (∀ name amount, estimate_co2e name amount
        = resolve_grams_co2e amount / 1000 * lookup_rate FOOTPRINT (12/10) (pyToLower name)) := by
  refine ⟨pyIn_g_of_kg, ?_, rfl, rfl, ?_, rfl, rfl, fun _ _ => rfl, fun _ _ => rfl⟩
  · rw [show resolve_grams_cost "200g" = 1 * ((200 : ℕ) : ℚ) from rfl]
    norm_num
  · rw [show resolve_grams_co2e "200g" = 1 * ((200 : ℕ) : ℚ) from rfl]
    norm_num

/-- Witness for C10: at the concrete amount "2kg" the dead-branch
implication of the amended claim applies. -/
theorem claim10_witness :
    pyIn "kg" "2kg" = true ∧ pyIn "g" "2kg" = true :=
  ⟨rfl, claim10_amount_resolution.1 "2kg" rfl⟩

/-- A fold that appends a block per element equals the accumulator
followed by the concatenation of the blocks. -/
theorem foldl_append_bind {β : Type} (step : List String → β → List String)
    (h : β → List String) (hstep : ∀ acc b, step acc b = acc ++ h b) (l : List β) :
    ∀ acc, l.foldl step acc = acc ++ l.flatMap h := by
  induction l with
  | nil => intro acc; simp
  | cons b t ih =>
    intro acc
    rw [List.foldl_cons, hstep, ih, List.flatMap_cons, List.append_assoc]

/-- The nested allergen loops collect exactly one ALLERGY line per
(food, allergen) pair whose lowercased allergen occurs in the lowercased
food name. -/
theorem allergy_issues_eq (foods allergies : List String) :
    allergy_issues foods allergies
      = foods.flatMap (fun food => allergies.flatMap (fun allergen =>
          if pyIn (pyToLower allergen) (pyToLower food) then
            ["ALLERGY ALERT: " ++ food ++ " contains " ++ allergen]
          else [])) := by
  unfold allergy_issues
  rw [foldl_append_bind _
    (fun food => allergies.flatMap (fun allergen =>
      if pyIn (pyToLower allergen) (pyToLower food) then
        ["ALLERGY ALERT: " ++ food ++ " contains " ++ allergen]
      else []))
    (fun acc food =>
      foldl_append_bind _
        (fun allergen =>
          if pyIn (pyToLower allergen) (pyToLower food) then
            ["ALLERGY ALERT: " ++ food ++ " contains " ++ allergen]
          else [])
        (fun iss allergen => by split <;> simp_all) allergies acc)
    foods []]
  simp

/-- Membership of the flagged line for a matching (food, allergen) pair. -/
theorem allergy_issues_mem (foods allergies : List String) (f a : String)
    (hf : f ∈ foods) (ha : a ∈ allergies)
    (hmatch : pyIn (pyToLower a) (pyToLower f) = true) :
    ("ALLERGY ALERT: " ++ f ++ " contains " ++ a) ∈ allergy_issues foods allergies := by
  rw [allergy_issues_eq]
  simp only [List.mem_flatMap]
  exact ⟨f, hf, a, ha, by rw [if_pos hmatch]; exact List.mem_singleton.mpr rfl⟩

/-- C6 counterexample: for the allergy "nuts" and the food list
["almonds"] the safety agent reports no issue and `safe = true` — the
substring test `"nuts" in "almonds"` fails, so the claim is false at
this input. -/
theorem claim6_counterexample :
    assocFind? (check_safety_content almonds_request) "safe" = some (vBool true)
    ∧ assocFind? (check_safety_content almonds_request) "issues" = some (vList [])
    ∧ ¬ (assocFind? (check_safety_content almonds_request) "safe" = some (vBool false)) := by
  refine ⟨rfl, rfl, ?_⟩
  intro hcontra
  rw [show assocFind? (check_safety_content almonds_request) "safe" = some (vBool true) from rfl]
    at hcontra
  simp at hcontra

/-- C6 (amended): for every safety-check request whose user profile
lists the allergy "nuts" and whose food list contains a food whose
lowercased name contains the substring "nuts", the response has
`safe = false` and its issues list holds at least one string containing
"ALLERGY". (As stated, with the food "almonds", the claim fails: the
agent tests whether the lowercased allergen is a substring of the
lowercased food name.) -/
theorem claim6_allergy_substring (content up : List (String × Val))
    (foods allergies : List String) (f : String)
    (hfoods : getStrListD content "foods" = foods)
    (hup : asDictD (assocFind? content "user_profile") = up)
    (hall : getStrListD up "allergies" = allergies)
    (hf : f ∈ foods) (hnuts : "nuts" ∈ allergies)
    (hsub : pyIn "nuts" (pyToLower f) = true) :
    assocFind? (check_safety_content content) "safe" = some (vBool false)
    ∧ assocFind? (check_safety_content content) "issues"
        = some (strListVal (allergy_issues foods allergies))
    ∧ ∃ issue ∈ allergy_issues foods allergies, pyIn "ALLERGY" issue = true := by
  have hmem := allergy_issues_mem foods allergies f "nuts" hf hnuts
    (by rw [show pyToLower "nuts" = "nuts" from rfl]; exact hsub)
  refine ⟨?_, ?_, ⟨_, hmem, ?_⟩⟩
  · rw [show assocFind? (check_safety_content content) "safe"
        = some (vBool ((allergy_issues (getStrListD content "foods")
            (getStrListD (asDictD (assocFind? content "user_profile")) "allergies")).length == 0))
      from rfl, hfoods, hup, hall]
    cases hcase : allergy_issues foods allergies with
    | nil => rw [hcase] at hmem; cases hmem
    | cons x xs => rfl
  · rw [show assocFind? (check_safety_content content) "issues"
        = some (strListVal (allergy_issues (getStrListD content "foods")
            (getStrListD (asDictD (assocFind? content "user_profile")) "allergies")))
      from rfl, hfoods, hup, hall]
  · rfl

/-- Witness for C6: the request with food list ["mixed nuts"] and
allergy "nuts" satisfies the amended claim at a concrete input. -/
theorem claim6_witness :
    assocFind? (check_safety_content mixed_nuts_request) "safe" = some (vBool false)
    ∧ assocFind? (check_safety_content mixed_nuts_request) "issues"
        = some (strListVal (allergy_issues ["mixed nuts"] ["nuts"]))
    ∧ ∃ issue ∈ allergy_issues ["mixed nuts"] ["nuts"], pyIn "ALLERGY" issue = true :=
  claim6_allergy_substring mixed_nuts_request
    [("allergies", strListVal ["nuts"]), ("medications", strListVal [])]
    ["mixed nuts"] ["nuts"] "mixed nuts" rfl rfl rfl
    (List.mem_singleton.mpr rfl) (List.mem_singleton.mpr rfl) rfl

/-- A found agent carries the looked-up id. -/
theorem findAgent_eq_id : ∀ (l : List Agent) (id : String) (b : Agent),
    findAgent l id = some b → b.agent_id = id := by
  intro l
  induction l with
  | nil => intro id b h; cases h
  | cons a t ih =>
    intro id b h
    by_cases hc : a.agent_id = id
    · rw [findAgent, if_pos hc] at h
      cases h
      exact hc
    · rw [findAgent, if_neg hc] at h
      exact ih id b h

/-- A found agent is a member of the registry. -/
theorem findAgent_mem : ∀ (l : List Agent) (id : String) (b : Agent),
    findAgent l id = some b → b ∈ l := by
  intro l
  induction l with
  | nil => intro id b h; cases h
  | cons a t ih =>
    intro id b h
    by_cases hc : a.agent_id = id
    · rw [findAgent, if_pos hc] at h
      cases h
      exact List.mem_cons_self a t
    · rw [findAgent, if_neg hc] at h
      exact List.mem_cons_of_mem a (ih id b h)

/-- Lookup succeeds for any id present in the registry. -/
theorem findAgent_isSome_of_mem_ids : ∀ (l : List Agent) (id : String),
    id ∈ l.map (fun a => a.agent_id) → ∃ b, findAgent l id = some b := by
  intro l
  induction l with
  | nil => intro id h; cases h
  | cons a t ih =>
    intro id h
    by_cases hc : a.agent_id = id
    · exact ⟨a, by rw [findAgent, if_pos hc]⟩
    · rcases List.mem_cons.mp h with h1 | h2
      · exact absurd h1.symm hc
      · obtain ⟨b, hb⟩ := ih id h2
        exact ⟨b, by rw [findAgent, if_neg hc]; exact hb⟩

/-- In-place updates that keep the id keep the registry id sequence. -/
theorem updateAgent_map_id (f : Agent → Agent) (hf : ∀ x, (f x).agent_id = x.agent_id) :
    ∀ (l : List Agent) (id : String),
      (updateAgent l id f).map (fun a => a.agent_id) = l.map (fun a => a.agent_id) := by
  intro l
  induction l with
  | nil => intro id; rfl
  | cons a t ih =>
    intro id
    by_cases hc : a.agent_id = id
    · rw [updateAgent, if_pos hc]
      simp [hf]
    · rw [updateAgent, if_neg hc]
      simp [ih]

/-- A property preserved by the update function holds on the updated
registry when it held everywhere before. -/
theorem updateAgent_forall {P : Agent → Prop} (f : Agent → Agent)
    (hP : ∀ a, P a → P (f a)) :
    ∀ (l : List Agent) (id : String), (∀ a ∈ l, P a) → ∀ a ∈ updateAgent l id f, P a := by
  intro l
  induction l with
  | nil => intro id h a ha; cases ha
  | cons b t ih =>
    intro id h a ha
    by_cases hc : b.agent_id = id
    · rw [updateAgent, if_pos hc] at ha
      rcases List.mem_cons.mp ha with rfl | h2
      · exact hP b (h b (List.mem_cons_self b t))
      · exact h a (List.mem_cons_of_mem b h2)
    · rw [updateAgent, if_neg hc] at ha
      rcases List.mem_cons.mp ha with rfl | h2
      · exact h a (List.mem_cons_self a t)
      · exact ih id (fun x hx => h x (List.mem_cons_of_mem b hx)) a h2

/-- The successful branch of `send_message`, explicitly. -/
theorem send_message_ok_spec (o : A2AOrchestrator) (m : A2AMessage) (b : Agent)
    (r : A2AMessage) (hb : findAgent o.agents m.recipient = some b)
    (hr : (b.receive_message m).process_message m = .ok r) :
    o.send_message m = .ok (r,
      { agents := updateAgent o.agents m.recipient (fun x => x.receive_message m),
        message_history := o.message_history ++ [m, r] }) := by
  simp only [A2AOrchestrator.send_message, hb, hr]

/-- The handler-exception branch of `send_message`, explicitly. -/
theorem send_message_error_spec (o : A2AOrchestrator) (m : A2AMessage) (b : Agent)
    (e : String) (hb : findAgent o.agents m.recipient = some b)
    (he : (b.receive_message m).process_message m = .error e) :
    o.send_message m = .error e := by
  simp only [A2AOrchestrator.send_message, hb, he]

/-- C2 counterexample: the recipient "goal_agent" is registered, yet
`send_message` does not return a response: with an empty content the
goal agent handler constructs `UserProfile(**complete_profile)` from the
five defaults alone and raises TypeError, which propagates out of
`send_message`. -/
theorem claim2_counterexample :
    (findAgent goal_only_orch.agents "goal_agent").isSome = true
    ∧ A2AOrchestrator.send_message goal_only_orch (orch_msg "goal_agent" .GOAL_ANALYSIS [])
        = .error "TypeError: UserProfile constructor arguments do not match its fields" :=
  ⟨rfl, rfl⟩

/-- C2 (amended): dispatch to an unregistered recipient always raises
the "recipient not found" routing error, for any content, type, priority
or sender; dispatch to a registered recipient returns exactly the one
response produced by that agent handler whenever the handler returns
normally, and propagates the handler exception otherwise (so "always
exactly one response" fails for, e.g., a GOAL_ANALYSIS message with an
empty content). -/
theorem claim2_send_contract (o : A2AOrchestrator) (m : A2AMessage) :
    (findAgent o.agents m.recipient = none →
      o.send_message m = .error ("Recipient agent " ++ m.recipient ++ " not found"))
    ∧ (∀ a, findAgent o.agents m.recipient = some a →
        (∀ r, (a.receive_message m).process_message m = .ok r →
          ∃ o', o.send_message m = .ok (r, o'))
        ∧ (∀ e, (a.receive_message m).process_message m = .error e →
          o.send_message m = .error e)) := by
  refine ⟨?_, ?_⟩
  · intro h
    simp only [A2AOrchestrator.send_message, h]
  · intro a ha
    exact ⟨fun r hr => ⟨_, send_message_ok_spec o m a r ha hr⟩,
           fun e he => send_message_error_spec o m a e ha he⟩

/-- Witness for C2: a dispatch to the unregistered id "nobody" raises
the routing error, and a NOTIFICATION dispatch to the registered
restriction agent returns its single acknowledgment response. -/
theorem claim2_witness :
    A2AOrchestrator.send_message empty_orch (orch_msg "nobody" .REQUEST [])
      = .error "Recipient agent nobody not found"
    ∧ ∃ o', A2AOrchestrator.send_message restriction_only_orch
        (orch_msg "restriction_safety_agent" .NOTIFICATION [])
        = .ok (agent_send_message "restriction_safety_agent" "orchestrator" .RESPONSE
            [("status", vStr "processed"), ("agent", vStr "restriction_safety_agent")], o') := by
  constructor
  · exact (claim2_send_contract empty_orch (orch_msg "nobody" .REQUEST [])).1 rfl
  · exact ((claim2_send_contract restriction_only_orch
      (orch_msg "restriction_safety_agent" .NOTIFICATION [])).2 _ rfl).1 _ rfl

/-- The broadcast loop over a snapshot list: when every registered agent
responds as itself, it returns one response per non-sender agent of the
snapshot, in order, each carrying the recipient id as sender, and it
preserves the registry ids and the responds-as-self property. -/
theorem broadcast_go_spec (sender : String) (mt : MessageType)
    (content : List (String × Val)) (priority : Priority) :
    ∀ (l : List Agent) (o : A2AOrchestrator),
      (∀ a ∈ o.agents, responds_ok_as_self a) →
      (∀ a ∈ l, a.agent_id ∈ o.agents.map (fun x => x.agent_id)) →
      ∃ rs o', broadcast_go sender mt content priority o l = .ok (rs, o')
        ∧ rs.map (fun r => r.sender)
            = (l.filter (fun a => !(a.agent_id == sender))).map (fun a => a.agent_id)
        ∧ o'.agents.map (fun x => x.agent_id) = o.agents.map (fun x => x.agent_id)
        ∧ (∀ a ∈ o'.agents, responds_ok_as_self a) := by
  intro l
  induction l with
  | nil => intro o hre hmem; exact ⟨[], o, rfl, rfl, rfl, hre⟩
  | cons a t ih =>
    intro o hre hmem
    by_cases hs : a.agent_id = sender
    · obtain ⟨rs, o', heq, hmap, hids, hre'⟩ :=
        ih o hre (fun x hx => hmem x (List.mem_cons_of_mem a hx))
      refine ⟨rs, o', ?_, ?_, hids, hre'⟩
      · simp only [broadcast_go]
        rw [if_pos hs]
        exact heq
      · rw [hmap]
        simp [List.filter_cons, hs]
    · obtain ⟨b, hb⟩ := findAgent_isSome_of_mem_ids o.agents a.agent_id
        (hmem a (List.mem_cons_self a t))
      have hbid : b.agent_id = a.agent_id := findAgent_eq_id o.agents a.agent_id b hb
      have hbmem : b ∈ o.agents := findAgent_mem o.agents a.agent_id b hb
      obtain ⟨r, hr, hrs⟩ := hre b hbmem
        { message_type := mt, priority := priority, sender := sender,
          recipient := a.agent_id, content := content }
      have hsend := send_message_ok_spec o
        { message_type := mt, priority := priority, sender := sender,
          recipient := a.agent_id, content := content } b r hb hr
      have hids₁ : (updateAgent o.agents a.agent_id (fun x => x.receive_message
            { message_type := mt, priority := priority, sender := sender,
              recipient := a.agent_id, content := content })).map (fun x => x.agent_id)
          = o.agents.map (fun x => x.agent_id) :=
        updateAgent_map_id (fun x => x.receive_message
            { message_type := mt, priority := priority, sender := sender,
              recipient := a.agent_id, content := content })
          (fun x => rfl) o.agents a.agent_id
      obtain ⟨rs, o', heq, hmap, hids', hre'⟩ := ih
        { agents := updateAgent o.agents a.agent_id (fun x => x.receive_message
            { message_type := mt, priority := priority, sender := sender,
              recipient := a.agent_id, content := content }),
          message_history := o.message_history ++
            [{ message_type := mt, priority := priority, sender := sender,
               recipient := a.agent_id, content := content }, r] }
        (updateAgent_forall (fun x => x.receive_message
            { message_type := mt, priority := priority, sender := sender,
              recipient := a.agent_id, content := content })
          (fun x hx => hx) o.agents a.agent_id hre)
        (fun x hx => by
          show x.agent_id ∈ (updateAgent o.agents a.agent_id (fun y => y.receive_message
            { message_type := mt, priority := priority, sender := sender,
              recipient := a.agent_id, content := content })).map (fun y => y.agent_id)
          rw [hids₁]
          exact hmem x (List.mem_cons_of_mem a hx))
      refine ⟨r :: rs, o', ?_, ?_, ?_, hre'⟩
      · simp only [broadcast_go]
        rw [if_neg hs, hsend]
        show (match broadcast_go sender mt content priority
            { agents := updateAgent o.agents a.agent_id (fun x => x.receive_message
                { message_type := mt, priority := priority, sender := sender,
                  recipient := a.agent_id, content := content }),
              message_history := o.message_history ++
                [{ message_type := mt, priority := priority, sender := sender,
                   recipient := a.agent_id, content := content }, r] } t with
          | Except.error e => Except.error e
          | Except.ok (rs', o'') => Except.ok (r :: rs', o''))
          = Except.ok (r :: rs, o')
        rw [heq]
      · rw [List.map_cons, hmap]
        have hfil : (a :: t).filter (fun x => !(x.agent_id == sender))
            = a :: t.filter (fun x => !(x.agent_id == sender)) := by
          simp [List.filter_cons, hs]
        rw [hfil, List.map_cons, hrs.trans hbid]
      · rw [hids']
        exact hids₁

/-- C7 counterexample: broadcasting a GOAL_ANALYSIS message with empty
content over an orchestrator with one registered non-sender agent (the
goal agent) does not return one response: the handler raises TypeError
and the broadcast propagates the exception. -/
theorem claim7_counterexample :
    goal_only_orch.agents.length = 1
    ∧ (∀ a ∈ goal_only_orch.agents, a.agent_id ≠ "orchestrator")
    ∧ A2AOrchestrator.broadcast_message goal_only_orch "orchestrator" .GOAL_ANALYSIS [] .NORMAL
        = .error "TypeError: UserProfile constructor arguments do not match its fields" := by
  refine ⟨rfl, ?_, rfl⟩
  intro a ha
  have h : goal_only_orch.agents = [goalAgentObj "20240101"] := rfl
  rw [h] at ha
  rcases List.mem_singleton.mp ha with rfl
  decide

/-- C7 (amended): whenever every registered agent handler returns
normally with its own id as sender (true of every handler of this
repository on the contents the pipeline sends, but violated for example
by the goal agent on an empty GOAL_ANALYSIS content), broadcasting
returns exactly one response per registered agent other than the sender,
in registration order, each response carrying the recipient agent id as
its sender. -/
theorem claim7_broadcast (o : A2AOrchestrator) (sender : String) (mt : MessageType)
    (content : List (String × Val)) (priority : Priority)
    (h : ∀ a ∈ o.agents, responds_ok_as_self a) :
    ∃ rs o', o.broadcast_message sender mt content priority = .ok (rs, o')
      ∧ rs.map (fun r => r.sender)
          = (o.agents.filter (fun a => !(a.agent_id == sender))).map (fun a => a.agent_id) := by
  obtain ⟨rs, o', heq, hmap, _, _⟩ := broadcast_go_spec sender mt content priority o.agents o h
    (fun a ha => List.mem_map_of_mem (fun x => x.agent_id) ha)
  exact ⟨rs, o', heq, hmap⟩

/-- The restriction agent always answers with its own id as sender. -/
theorem restriction_responds : responds_ok_as_self restrictionSafetyAgentObj := by
  intro m
  show ∃ r, restriction_safety_process m = .ok r ∧ r.sender = "restriction_safety_agent"
  unfold restriction_safety_process
  by_cases hc : m.message_type = .SAFETY_CHECK
  · rw [if_pos hc]
    exact ⟨_, rfl, rfl⟩
  · rw [if_neg hc]
    exact ⟨_, rfl, rfl⟩

/-- The budget agent always answers with its own id as sender. -/
theorem budget_responds : responds_ok_as_self budgetAccessibilityAgentObj := by
  intro m
  show ∃ r, budget_accessibility_process m = .ok r ∧ r.sender = "budget_accessibility_agent"
  unfold budget_accessibility_process
  by_cases hc : m.message_type = .BUDGET_CHECK
  · rw [if_pos hc]
    exact ⟨_, rfl, rfl⟩
  · rw [if_neg hc]
    exact ⟨_, rfl, rfl⟩

/-- Witness for C7: broadcasting a NOTIFICATION over the two-agent
orchestrator returns the two responses, with senders equal to the two
registered ids in registration order. -/
theorem claim7_witness :
    ∃ rs o', two_agent_orch.broadcast_message "orchestrator" .NOTIFICATION [] .NORMAL
        = .ok (rs, o')
      ∧ rs.map (fun r => r.sender)
          = ["restriction_safety_agent", "budget_accessibility_agent"] := by
  have hall : ∀ a ∈ two_agent_orch.agents, responds_ok_as_self a := by
    intro a ha
    have h2 : two_agent_orch.agents
        = [restrictionSafetyAgentObj, budgetAccessibilityAgentObj] := rfl
    rw [h2] at ha
    rcases List.mem_cons.mp ha with rfl | hb
    · exact restriction_responds
    · rcases List.mem_singleton.mp hb with rfl
      exact budget_responds
  obtain ⟨rs, o', heq, hmap⟩ :=
    claim7_broadcast two_agent_orch "orchestrator" .NOTIFICATION [] .NORMAL hall
  refine ⟨rs, o', heq, ?_⟩
  rw [hmap]
  decide

/-- Merging a full profile dict into the goal defaults. -/
theorem assocUpdate_goal_defaults (p : UserProfile) :
    assocUpdate goal_defaults (userProfileDict p) = merged_profile p := by
  simp only [assocUpdate, goal_defaults, userProfileDict, merged_profile,
    List.foldl_cons, List.foldl_nil, assocSet, String.reduceEq, reduceIte]

/-- Reading back a stored string list returns it unchanged. -/
theorem getStrListD_strList (d : List (String × Val)) (k : String) (xs : List String)
    (h : assocFind? d k = some (strListVal xs)) : getStrListD d k = xs := by
  rw [getStrListD, h]
  clear h
  show (xs.map vStr).foldr _ _ = xs
  induction xs with
  | nil => rfl
  | cons x t ih => rw [List.map_cons, List.foldr_cons, ih]

/-- Reading back a stored number list returns it unchanged. -/
theorem getNumListD_numList (d : List (String × Val)) (k : String) (xs : List ℚ)
    (h : assocFind? d k = some (numListVal xs)) : getNumListD d k = xs := by
  rw [getNumListD, h]
  clear h
  show (xs.map vNum).foldr _ _ = xs
  induction xs with
  | nil => rfl
  | cons x t ih => rw [List.map_cons, List.foldr_cons, ih]

/-- Rebuilding a `UserProfile` from its merged dict recovers the profile. -/
theorem userProfileOfDict_merged (p : UserProfile) :
    userProfileOfDict? (merged_profile p) = some p := by
  obtain ⟨nm, ag, ge, hcm, wkg, alv, gt, dp, alg, itl, dfo, avi, cp, bl, cs, ta, td, mc, md, co⟩ := p
  show some _ = _
  refine congrArg some ?_
  simp only [UserProfile.mk.injEq]
  refine ⟨rfl, rfl, rfl, rfl, rfl, rfl, rfl, ?_, ?_, ?_, ?_, ?_, rfl, rfl, rfl, rfl,
    ?_, ?_, ?_, rfl⟩
  · exact getStrListD_strList _ _ _ rfl
  · exact getStrListD_strList _ _ _ rfl
  · exact getStrListD_strList _ _ _ rfl
  · exact getStrListD_strList _ _ _ rfl
  · exact getStrListD_strList _ _ _ rfl
  · exact getNumListD_numList _ _ _ rfl
  · exact getStrListD_strList _ _ _ rfl
  · exact getStrListD_strList _ _ _ rfl

/-- The goal agent answers the step 2 request with the blueprint response. -/
theorem goal_process_eq (clock : String) (p : UserProfile) :
    goal_process clock (goal_msg p) = Except.ok (goal_response clock p) := by
  have h1 : assocUpdate goal_defaults (asDictD (assocFind? (goal_msg p).content "profile"))
      = merged_profile p := by
    rw [show asDictD (assocFind? (goal_msg p).content "profile") = userProfileDict p from rfl]
    exact assocUpdate_goal_defaults p
  unfold goal_process
  rw [if_pos (show (goal_msg p).message_type = MessageType.GOAL_ANALYSIS from rfl), h1,
    userProfileOfDict_merged]
  rfl

/-- Bind of the pipeline monad on a successful first step. -/
theorem pipeBind_ok {α β : Type} {x : PipeM α} {f : α → PipeM β} {a : α} {s s2 : PState}
    (h : x s = Except.ok (a, s2)) : (x >>= f) s = f a s2 := by
  show PipeM.bindFn x f s = f a s2
  unfold PipeM.bindFn
  rw [h]

/-- Bind of the pipeline monad on a failing first step. -/
theorem pipeBind_err {α β : Type} {x : PipeM α} {f : α → PipeM β} {E : String × PState}
    {s : PState} (h : x s = Except.error E) : (x >>= f) s = Except.error E := by
  show PipeM.bindFn x f s = Except.error E
  unfold PipeM.bindFn
  rw [h]

/-- `sendP` on a registered recipient whose handler returns normally. -/
theorem sendP_ok (d : A2ADietitianOrchestrator) (fl : Flow) (m : A2AMessage) (b : Agent)
    (r : A2AMessage) (hb : findAgent d.agents m.recipient = some b)
    (hr : (b.receive_message m).process_message m = Except.ok r) :
    sendP m (d, fl) = Except.ok (r, (d_after d m r, fl)) := by
  have h := send_message_ok_spec d.toA2AOrchestrator m b r hb hr
  unfold sendP
  rw [h]
  rfl

/-- `pushMessageP`, explicitly. -/
theorem pushMessageP_eq (v : Val) (d : A2ADietitianOrchestrator) (f : Flow) :
    pushMessageP v (d, f) = Except.ok ((), (d, { f with messages := f.messages ++ [v] })) := rfl

/-- `setResultP`, explicitly. -/
theorem setResultP_eq (k : String) (v : Val) (d : A2ADietitianOrchestrator) (f : Flow) :
    setResultP k v (d, f) = Except.ok ((), (d, { f with results := assocSet f.results k v })) :=
  rfl

/-- `getItemP` on a present key. -/
theorem getItemP_ok {d : List (String × Val)} {k : String} {v : Val} (s : PState)
    (h : assocFind? d k = some v) : getItemP d k s = Except.ok (v, s) := by
  unfold getItemP
  rw [h]

/-- The food response carries no "suggestions" key, so indexing it raises. -/
theorem food_resp_no_suggestions (st : List (String × Val)) (p : UserProfile) (s : PState) :
    getItemP (food_resp st p).content "suggestions" s
      = Except.error ("KeyError: suggestions", s) := rfl

/-- Steps 4-8 fail immediately on the "suggestions" lookup. -/
theorem try_steps_4_8_err (st : List (String × Val)) (p : UserProfile) (s : PState) :
    try_steps_4_8 p (food_resp st p) s = Except.error ("KeyError: suggestions", s) := by
  unfold try_steps_4_8
  exact pipeBind_err (food_resp_no_suggestions st p s)

/-- Steps 1-3 succeed: the three responses and the state they leave. -/
theorem try_steps_1_3_run (st : List (String × Val)) (rest : List Agent)
    (hist : List A2AMessage) (flows : List Flow) (clock : String) (p : UserProfile) (f0 : Flow) :
    ∃ d3 : A2ADietitianOrchestrator,
      try_steps_1_3 p (dietitian_base_orch st clock rest hist flows, f0)
        = Except.ok ((pref_resp st p, goal_response clock p, food_resp st p),
            (d3, flow_after_3 st clock p f0))
      ∧ d3.conversation_flows = flows := by
  have h1 : sendP (pref_msg p) (dietitian_base_orch st clock rest hist flows, f0)
      = Except.ok (pref_resp st p,
          (d_after (dietitian_base_orch st clock rest hist flows) (pref_msg p) (pref_resp st p),
           f0)) :=
    sendP_ok _ _ _ (preferenceAgentObj st) _ rfl rfl
  have h2 : sendP (goal_msg p)
      (d_after (dietitian_base_orch st clock rest hist flows) (pref_msg p) (pref_resp st p),
       { f0 with messages := f0.messages ++ [(pref_resp st p).to_dict] })
      = Except.ok (goal_response clock p,
          (d_after (d_after (dietitian_base_orch st clock rest hist flows) (pref_msg p)
              (pref_resp st p)) (goal_msg p) (goal_response clock p),
           { f0 with messages := f0.messages ++ [(pref_resp st p).to_dict] })) :=
    sendP_ok _ _ _ (goalAgentObj clock) _ rfl (by
      rw [show ((goalAgentObj clock).receive_message (goal_msg p)).process_message
        = goal_process clock from rfl]
      exact goal_process_eq clock p)
  have hprof : assocFind? (pref_resp st p).content "profile"
      = some (vDict (assocUpdate st (userProfileDict p))) := rfl
  have htarg : assocFind? (goal_response clock p).content "targets"
      = some (vDict (macroPlanDict (goal_targets p))) := rfl
  have h3 : sendP (food_msg st p)
      (d_after (d_after (dietitian_base_orch st clock rest hist flows) (pref_msg p)
          (pref_resp st p)) (goal_msg p) (goal_response clock p),
       { f0 with
         messages := (f0.messages ++ [(pref_resp st p).to_dict])
           ++ [(goal_response clock p).to_dict],
         results := assocSet f0.results "nutritional_blueprint"
           (vDict (goal_response clock p).content) })
      = Except.ok (food_resp st p,
          (d_after (d_after (d_after (dietitian_base_orch st clock rest hist flows) (pref_msg p)
              (pref_resp st p)) (goal_msg p) (goal_response clock p)) (food_msg st p)
              (food_resp st p),
           { f0 with
             messages := (f0.messages ++ [(pref_resp st p).to_dict])
               ++ [(goal_response clock p).to_dict],
             results := assocSet f0.results "nutritional_blueprint"
               (vDict (goal_response clock p).content) })) :=
    sendP_ok _ _ _ foodKnowledgeAgentObj _ rfl rfl
  refine ⟨d_after (d_after (d_after (dietitian_base_orch st clock rest hist flows) (pref_msg p)
      (pref_resp st p)) (goal_msg p) (goal_response clock p)) (food_msg st p) (food_resp st p),
    ?_, rfl⟩
  unfold try_steps_1_3
  rw [pipeBind_ok h1]
  rw [pipeBind_ok (pushMessageP_eq _ _ _)]
  rw [pipeBind_ok h2]
  rw [pipeBind_ok (pushMessageP_eq _ _ _)]
  rw [pipeBind_ok (setResultP_eq _ _ _ _)]
  rw [pipeBind_ok (getItemP_ok _ hprof)]
  rw [pipeBind_ok (getItemP_ok _ htarg)]
  rw [pipeBind_ok h3]
  rw [pipeBind_ok (pushMessageP_eq _ _ _)]
  rw [pipeBind_ok (setResultP_eq _ _ _ _)]
  rfl

/-- The try block always fails at the "suggestions" lookup of step 4. -/
theorem create_try_body_err (st : List (String × Val)) (rest : List Agent)
    (hist : List A2AMessage) (flows : List Flow) (clock : String) (p : UserProfile)
    (hd fb : Option (List (String × Val))) (f0 : Flow) :
    ∃ d3 : A2ADietitianOrchestrator,
      create_try_body p hd fb (dietitian_base_orch st clock rest hist flows, f0)
        = Except.error ("KeyError: suggestions", (d3, flow_after_3 st clock p f0))
      ∧ d3.conversation_flows = flows := by
  obtain ⟨d3, h13, hfl⟩ := try_steps_1_3_run st rest hist flows clock p f0
  refine ⟨d3, ?_, hfl⟩
  unfold create_try_body
  rw [pipeBind_ok h13]
  rw [show (pref_resp st p, goal_response clock p, food_resp st p).2.2 = food_resp st p from rfl]
  exact pipeBind_err (try_steps_4_8_err st p _)

/-- C1: for every user profile, optional health data and feedback, and
any orchestrator state whose registry starts with the preference, goal
and food knowledge agents (with any accumulated preference-agent state
and any further registered agents, covering the real eighteen-agent
registry), `create_comprehensive_plan` returns a result whose status is
"error": the safety-check step indexes
`food_response.content["suggestions"]`, but the food response only has
the keys daily_meals, total_calories, total_protein, total_carbs,
total_fats and message, so the lookup raises KeyError, the handler
catches it, and the partial flow record with the three messages already
exchanged is appended to `conversation_flows`. -/
theorem claim1_pipeline_error (st : List (String × Val)) (rest : List Agent)
    (hist : List A2AMessage) (flows : List Flow) (clock : String) (p : UserProfile)
    (health_data feedback : Option (List (String × Val))) :
    assocFind? (create_comprehensive_plan (dietitian_base_orch st clock rest hist flows)
        clock p health_data feedback).1 "status" = some (vStr "error")
    ∧ assocFind? (create_comprehensive_plan (dietitian_base_orch st clock rest hist flows)
        clock p health_data feedback).1 "error" = some (vStr "KeyError: suggestions")
    ∧ ∃ fl, (create_comprehensive_plan (dietitian_base_orch st clock rest hist flows)
          clock p health_data feedback).2.conversation_flows = flows ++ [fl]
        ∧ fl.messages.length = 3
        ∧ fl.errorMsg = some "KeyError: suggestions" := by
  obtain ⟨d3, hbody, hfl⟩ := create_try_body_err st rest hist flows clock p health_data feedback
    (flow0_of clock p health_data feedback)
  have hplan : create_comprehensive_plan (dietitian_base_orch st clock rest hist flows) clock p
      health_data feedback
      = ([("flow_id", vStr ("flow_" ++ clock)), ("status", vStr "error"),
          ("error", vStr "KeyError: suggestions"),
          ("agent_status", ({ d3 with conversation_flows := d3.conversation_flows
              ++ [{ flow_after_3 st clock p (flow0_of clock p health_data feedback) with
                    errorMsg := some "KeyError: suggestions" }] }
            : A2ADietitianOrchestrator).toA2AOrchestrator.get_agent_status)],
         { d3 with conversation_flows := d3.conversation_flows
             ++ [{ flow_after_3 st clock p (flow0_of clock p health_data feedback) with
                   errorMsg := some "KeyError: suggestions" }] }) := by
    unfold create_comprehensive_plan
    rw [hbody]
  rw [hplan]
  refine ⟨rfl, rfl,
    ⟨{ flow_after_3 st clock p (flow0_of clock p health_data feedback) with
       errorMsg := some "KeyError: suggestions" }, ?_, rfl, rfl⟩⟩
  show d3.conversation_flows ++ _ = flows ++ _
  rw [hfl]

end NutriGuide
